import Mathlib

/-!
# Verification of `config/evm_app_options.go`

A shallow embedding of the one-time EVM configuration gate of the `config`
package: the package variable `sealed`, the four entry points
`EvmAppOptionsWithConfig`, `EvmAppOptionsWithConfigWithReset`,
`EvmAppOptionsWithDynamicConfig`, `EvmAppOptionsWithDynamicConfigWithReset`
and the helper `setBaseDenom`.

Process-wide mutable state is passed explicitly: every operation maps a state
to a new state and a `Result`.  The collaborators the file calls but does not
define are handled as follows.

* The denomination registry (`sdk.RegisterDenom`, `sdk.SetBaseDenom`) and the
  decimal constructors (`math.LegacyOneDec`, `math.LegacyNewDecWithPrec`) are
  modelled concretely in the namespaces `sdk` and `math`.
* The execution engine (`evmtypes.DefaultChainConfig`,
  `evmtypes.NewEVMConfigurator`, `ResetTestConfig`, `Configure`) is a
  parameter, `Configurator`: the general theorems hold for every engine.
  `specEngine` is one concrete engine, used to evaluate the code on inputs.
-/

namespace EvmConfig

/-! ## Results of a call -/

/-- The Go `error` values that the embedded code can produce or pass on. -/
inductive Error where
  /-- `fmt.Errorf("unknown chain id: %d", chainID)` of the map-keyed entry points -/
  | unknownChainId (chainID : Nat)
  /-- `sdk.ValidateDenom` rejected the symbol (raised by `sdk.RegisterDenom`) -/
  | invalidDenom (denom : String)
  /-- `"denom %s already registered"` of `sdk.RegisterDenom` -/
  | alreadyRegistered (denom : String)
  /-- `"denom %s not registered"` of `sdk.SetBaseDenom` -/
  | notRegistered (denom : String)
  /-- an error reported by the engine's `Configure` -/
  | engine (msg : String)
  deriving DecidableEq, Repr

/-- How a call of a Go function with result type `error` ends: it returns
`nil`, it returns an error, or it panics (the panic unwinds through every
caller in this file, none of which recovers). -/
inductive Result where
  | nil
  | err (e : Error)
  | panicked
  deriving DecidableEq, Repr

/-! ## `cosmossdk.io/math`: legacy decimals -/

namespace math

/-- Modelled from the spec: `math.LegacyDec` of `cosmossdk.io/math` (a library
type, not among the sources), the precision value of a unit (§3, §4.1).  A
decimal with 18 fractional digits is held as the integer `i`, its value times
`10^18`. -/
structure LegacyDec where
  i : Int
  deriving DecidableEq, Repr

/-- Modelled from the spec: the library constant `LegacyPrecision`, the
number of fractional digits of a `LegacyDec` (at most 18 decimals, §3). -/
def LegacyPrecision : Int := 18

/-- Modelled from the spec: `math.LegacyOneDec()`, the value 1 (§4.1 step 1,
"1 display unit = 1 whole unit"). -/
def LegacyOneDec : LegacyDec := ⟨10 ^ 18⟩

/-- Modelled from the spec: `math.LegacyNewDecWithPrec(i, prec)`, the value
`i * 10^(-prec)` (§4.1 step 2).  The library panics when `prec` is negative or
exceeds `LegacyPrecision`; `none` stands for that panic. -/
def LegacyNewDecWithPrec (i prec : Int) : Option LegacyDec :=
  if prec < 0 ∨ LegacyPrecision < prec then none
  else some ⟨i * 10 ^ (LegacyPrecision - prec).toNat⟩

/-- Modelled from the spec: the library comparison `d.LT(d2)`, "numerically
smaller" of §4.1 step 2. -/
def LegacyDec.LT (d d2 : LegacyDec) : Bool := decide (d.i < d2.i)

end math

/-! ## `sdk`: the process denomination catalog -/

namespace sdk

/-- Modelled from the spec: the Process Denomination Catalog (§3), the two
package variables of the SDK's denomination registry, which is not among the
sources: the map `denomUnits` from unit symbol to unit value, and the
`baseDenom` pointer (`""` while unset).  The Go map is an association list
with the most recently registered symbol first. -/
structure Registry where
  denomUnits : List (String × math.LegacyDec)
  baseDenom : String
  deriving DecidableEq, Repr

/-- The catalog at process start: no unit, no base unit. -/
def Registry.empty : Registry := ⟨[], ""⟩

/-- First character of a well-formed symbol: `[a-zA-Z]`. -/
def denomHead (c : Char) : Bool := c.isAlpha

/-- Later characters of a well-formed symbol: `[a-zA-Z0-9/:._-]`. -/
def denomTail (c : Char) : Bool :=
  c.isAlphanum || ['/', ':', '.', '_', '-'].contains c

/-- Modelled from the spec: `sdk.ValidateDenom`, the check behind the
`Invalid` error of §6 ("malformed symbol", §4.1): a symbol is well formed
when it matches `[a-zA-Z][a-zA-Z0-9/:._-]{2,127}`. -/
def ValidateDenom (denom : String) : Option Error :=
  match denom.data with
  | [] => some (.invalidDenom denom)
  | c :: cs =>
    if denomHead c && cs.all denomTail && decide (2 ≤ cs.length) && decide (cs.length ≤ 127)
    then none else some (.invalidDenom denom)

/-- Modelled from the spec: `sdk.RegisterDenom(denom, unit)`, the
`RegisterUnit` of §6 with its errors `Invalid` and `AlreadyRegistered`.  A new
symbol is added to `denomUnits`, and it becomes the base unit when none is set
or when its unit value is lower than that of the current base unit (the
comment at lines 126-127 of the source).  Comparing with a base-unit pointer
that names no registered symbol dereferences a nil decimal: that is the
`panicked` result. -/
def RegisterDenom (denom : String) (unit : math.LegacyDec) (reg : Registry) :
    Registry × Result :=
  match ValidateDenom denom with
  | some e => (reg, .err e)
  | none =>
    match reg.denomUnits.lookup denom with
    | some _ => (reg, .err (.alreadyRegistered denom))
    | none =>
      let units := (denom, unit) :: reg.denomUnits
      if reg.baseDenom = "" then (⟨units, denom⟩, .nil)
      else
        match units.lookup reg.baseDenom with
        | none => (⟨units, reg.baseDenom⟩, .panicked)
        | some b => if unit.LT b then (⟨units, denom⟩, .nil) else (⟨units, reg.baseDenom⟩, .nil)

/-- Modelled from the spec: `sdk.SetBaseDenom(denom)`, the `SetBaseUnit` of
§6: the base-unit pointer is moved to a registered symbol; an unregistered
symbol is an error and moves nothing. -/
def SetBaseDenom (denom : String) (reg : Registry) : Registry × Result :=
  match reg.denomUnits.lookup denom with
  | none => (reg, .err (.notRegistered denom))
  | some _ => (⟨reg.denomUnits, denom⟩, .nil)

end sdk

/-! ## The `config` package -/

/-- The fields of `evmtypes.EvmCoinInfo` that the file reads. -/
structure EvmCoinInfo where
  Denom : String
  DisplayDenom : String
  Decimals : Nat
  deriving DecidableEq, Repr

/-- The engine-side collaborators of `x/vm/types`, taken as parameters:
`DefaultChainConfig(chainID)`, the configurator's `ResetTestConfig()`, and the
builder chain `WithExtendedEips(a).WithChainConfig(c).WithEVMCoinInfo(ci).Configure()`
run on a fresh `NewEVMConfigurator()`, as a function of the engine's global
configuration `Eng`.  `Act` is the activator table, `Cfg` the chain
configuration. -/
structure Configurator (Act Cfg Eng : Type) where
  DefaultChainConfig : Nat → Cfg
  ResetTestConfig : Eng → Eng
  Configure : Act → Cfg → EvmCoinInfo → Eng → Eng × Result

/-- The process-wide state the package acts on: its variable `sealed`, the
SDK's denomination registry, and the engine's global configuration. -/
structure State (Eng : Type) where
  sealed : Bool
  registry : sdk.Registry
  engine : Eng
  deriving DecidableEq, Repr

/-- The body of `setBaseDenom` (lines 122-128), without the deferred call:
register the display unit at 1 and return its error if any; else build
`LegacyNewDecWithPrec(1, int64(ci.Decimals))` (argument evaluation, which may
panic) and return the result of registering the base unit at it. -/
def setBaseDenomBody (ci : EvmCoinInfo) (reg : sdk.Registry) : sdk.Registry × Result :=
  match sdk.RegisterDenom ci.DisplayDenom math.LegacyOneDec reg with
  | (reg1, .nil) =>
    match math.LegacyNewDecWithPrec 1 (ci.Decimals : Int) with
    | none => (reg1, .panicked)
    | some unit => sdk.RegisterDenom ci.Denom unit reg1
  | (reg1, r) => (reg1, r)

/-- `setBaseDenom` (lines 115-129).  The deferred closure runs after the body
on every path and assigns the named result `err = sdk.SetBaseDenom(ci.Denom)`;
when the body panicked the closure still runs and the panic then continues. -/
def setBaseDenom (ci : EvmCoinInfo) (reg : sdk.Registry) : sdk.Registry × Result :=
  match setBaseDenomBody ci reg with
  | (reg1, .panicked) => ((sdk.SetBaseDenom ci.Denom reg1).1, .panicked)
  | (reg1, _) => sdk.SetBaseDenom ci.Denom reg1

section EntryPoints

variable {Act Cfg Eng : Type}

/-- `EvmAppOptionsWithDynamicConfigWithReset` (lines 83-110). -/
def EvmAppOptionsWithDynamicConfigWithReset (env : Configurator Act Cfg Eng)
    (chainID : Nat) (chainCoinInfo : EvmCoinInfo) (cosmosEVMActivators : Act)
    (withReset : Bool) (s : State Eng) : State Eng × Result :=
  match setBaseDenom chainCoinInfo s.registry with
  | (reg, .nil) =>
    let ethCfg := env.DefaultChainConfig chainID
    let eng := if withReset then env.ResetTestConfig s.engine else s.engine
    let out := env.Configure cosmosEVMActivators ethCfg chainCoinInfo eng
    (⟨s.sealed, reg, out.1⟩, out.2)
  | (reg, r) => (⟨s.sealed, reg, s.engine⟩, r)

/-- `EvmAppOptionsWithDynamicConfig` (lines 64-79). -/
def EvmAppOptionsWithDynamicConfig (env : Configurator Act Cfg Eng)
    (chainID : Nat) (chainCoinInfo : EvmCoinInfo) (cosmosEVMActivators : Act)
    (s : State Eng) : State Eng × Result :=
  if s.sealed then (s, .nil)
  else
    match EvmAppOptionsWithDynamicConfigWithReset env chainID chainCoinInfo
        cosmosEVMActivators false s with
    | (s1, .nil) => (⟨true, s1.registry, s1.engine⟩, .nil)
    | (s1, r) => (s1, r)

/-- `EvmAppOptionsWithConfig` (lines 28-44).  The map `chainsCoinInfo` is an
association list; `List.lookup` is the Go lookup `chainsCoinInfo[chainID]`. -/
def EvmAppOptionsWithConfig (env : Configurator Act Cfg Eng)
    (chainID : Nat) (chainsCoinInfo : List (Nat × EvmCoinInfo)) (cosmosEVMActivators : Act)
    (s : State Eng) : State Eng × Result :=
  if s.sealed then (s, .nil)
  else
    match chainsCoinInfo.lookup chainID with
    | none => (s, .err (.unknownChainId chainID))
    | some coinInfo =>
      EvmAppOptionsWithDynamicConfig env chainID coinInfo cosmosEVMActivators
        ⟨true, s.registry, s.engine⟩

/-- `EvmAppOptionsWithConfigWithReset` (lines 48-60). -/
def EvmAppOptionsWithConfigWithReset (env : Configurator Act Cfg Eng)
    (chainID : Nat) (chainsCoinInfo : List (Nat × EvmCoinInfo)) (cosmosEVMActivators : Act)
    (withReset : Bool) (s : State Eng) : State Eng × Result :=
  match chainsCoinInfo.lookup chainID with
  | none => (s, .err (.unknownChainId chainID))
  | some coinInfo =>
    EvmAppOptionsWithDynamicConfigWithReset env chainID coinInfo cosmosEVMActivators withReset s

end EntryPoints

/-! ## A concrete engine -/

/-- Modelled from the spec: the execution engine's global configuration cell
(§4.3, §6), whose code is not among the sources.  It is empty until a
`Configure` succeeds and then holds what was applied: the chain parameters
(here the chain id they were resolved from), the coin info and the activator
table (here the feature codes). -/
structure Engine where
  applied : Option (Nat × EvmCoinInfo × List Nat)
  deriving DecidableEq, Repr

/-- Modelled from the spec: the Configurator of §4.3 over `Engine`.  `Resolve`
is deterministic (§4.2), `ResetForTest` clears the applied configuration, and
`Configure` is rejected as already configured unless the cell is empty, in
which case it applies its three arguments. -/
def specEngine : Configurator (List Nat) Nat Engine where
  DefaultChainConfig := fun chainID => chainID
  ResetTestConfig := fun _ => ⟨none⟩
  Configure := fun acts cfg ci eng =>
    match eng.applied with
    | some _ => (eng, .err (.engine "already configured"))
    | none => (⟨some (cfg, ci, acts)⟩, .nil)

/-- The process state at start: unsealed, empty catalog, engine unconfigured. -/
def State.initial : State Engine := ⟨false, sdk.Registry.empty, ⟨none⟩⟩

/-- The coin info of the spec's scenario (§8). -/
def atom : EvmCoinInfo := ⟨"uatom", "ATOM", 6⟩

/-- The process state after one successful dynamic configuration for chain
9001 with `atom`: sealed, `ATOM` and `uatom` registered, engine configured. -/
def State.booted : State Engine :=
  ⟨true, ⟨[("uatom", ⟨10 ^ 12⟩), ("ATOM", ⟨10 ^ 18⟩)], "uatom"⟩, ⟨some (9001, atom, [])⟩⟩

/-- An engine that rejects every `Configure` (the `ApplyFailure` of §7) and
leaves the configuration cell as it found it; `ResetTestConfig` clears the
cell.  Used to evaluate the failure paths on inputs. -/
def refusingEngine : Configurator (List Nat) Nat Engine where
  DefaultChainConfig := fun chainID => chainID
  ResetTestConfig := fun _ => ⟨none⟩
  Configure := fun _ _ _ eng => (eng, .err (.engine "rejected"))

/-- The value a `LegacyDec` stands for, as a rational number. -/
def math.LegacyDec.toRat (d : math.LegacyDec) : ℚ := (d.i : ℚ) / 10 ^ 18

/-! ## Call sequences and the `Configure` counter -/

section Traces

variable {Act Cfg Eng : Type}

/-- A spy on an engine (the mutation counter of §8, P1): the engine's
configuration is paired with the number of `Configure` applications that have
returned success.  `Configure` runs the engine's own `Configure` and adds one
to the counter when it returns `nil`; `ResetTestConfig` resets the engine and
keeps the counter. -/
def spy (env : Configurator Act Cfg Eng) : Configurator Act Cfg (Eng × Nat) where
  DefaultChainConfig := env.DefaultChainConfig
  ResetTestConfig := fun eng => (env.ResetTestConfig eng.1, eng.2)
  Configure := fun acts cfg ci eng =>
    (((env.Configure acts cfg ci eng.1).1,
      if (env.Configure acts cfg ci eng.1).2 = .nil then eng.2 + 1 else eng.2),
     (env.Configure acts cfg ci eng.1).2)

/-- One call of one of the four public entry points, with its arguments. -/
inductive Call (Act : Type) where
  | config (chainID : Nat) (chainsCoinInfo : List (Nat × EvmCoinInfo)) (acts : Act)
  | configWithReset (chainID : Nat) (chainsCoinInfo : List (Nat × EvmCoinInfo)) (acts : Act)
      (withReset : Bool)
  | dynamic (chainID : Nat) (ci : EvmCoinInfo) (acts : Act)
  | dynamicWithReset (chainID : Nat) (ci : EvmCoinInfo) (acts : Act) (withReset : Bool)

/-- The non-reset entry points: `EvmAppOptionsWithConfig` and
`EvmAppOptionsWithDynamicConfig`. -/
def Call.nonReset : Call Act → Bool
  | .config _ _ _ => true
  | .dynamic _ _ _ => true
  | .configWithReset _ _ _ _ => false
  | .dynamicWithReset _ _ _ _ => false

/-- Run one call on a state. -/
def Call.run (env : Configurator Act Cfg Eng) : Call Act → State Eng → State Eng × Result
  | .config chainID chainsCoinInfo acts =>
    EvmAppOptionsWithConfig env chainID chainsCoinInfo acts
  | .configWithReset chainID chainsCoinInfo acts withReset =>
    EvmAppOptionsWithConfigWithReset env chainID chainsCoinInfo acts withReset
  | .dynamic chainID ci acts =>
    EvmAppOptionsWithDynamicConfig env chainID ci acts
  | .dynamicWithReset chainID ci acts withReset =>
    EvmAppOptionsWithDynamicConfigWithReset env chainID ci acts withReset

/-- Run a sequence of calls, each on the state the previous one left. -/
def runCalls (env : Configurator Act Cfg Eng) : List (Call Act) → State Eng → State Eng
  | [], s => s
  | c :: cs, s => runCalls env cs (c.run env s).1

/-- Run a sequence of calls on the spied engine and count the calls made
through a non-reset entry point during which a `Configure` returned success
(the counter went up). -/
def nonResetApplies (env : Configurator Act Cfg Eng) :
    List (Call Act) → State (Eng × Nat) → Nat
  | [], _ => 0
  | c :: cs, s =>
    (if c.nonReset && decide (s.engine.2 < (c.run (spy env) s).1.engine.2) then 1 else 0)
      + nonResetApplies env cs (c.run (spy env) s).1

end Traces

/-! ## The denomination registrar -/

namespace sdk

/-- A symbol is registered when `denomUnits` has an entry for it. -/
def Registry.registered (reg : Registry) (denom : String) : Bool :=
  (reg.denomUnits.lookup denom).isSome

theorem SetBaseDenom_of_not_registered (denom : String) (reg : Registry)
    (h : reg.denomUnits.lookup denom = none) :
    SetBaseDenom denom reg = (reg, .err (.notRegistered denom)) := by
  simp [SetBaseDenom, h]

theorem SetBaseDenom_of_registered (denom : String) (reg : Registry)
    (h : reg.registered denom = true) :
    SetBaseDenom denom reg = (⟨reg.denomUnits, denom⟩, .nil) := by
  unfold Registry.registered at h
  cases hl : reg.denomUnits.lookup denom with
  | none => simp [hl] at h
  | some v => simp [SetBaseDenom, hl]

theorem SetBaseDenom_ne_panicked (denom : String) (reg : Registry) :
    (SetBaseDenom denom reg).2 ≠ .panicked := by
  unfold SetBaseDenom
  split <;> simp

theorem SetBaseDenom_nil (denom : String) (reg : Registry)
    (h : (SetBaseDenom denom reg).2 = .nil) :
    reg.registered denom = true ∧ (SetBaseDenom denom reg).1 = ⟨reg.denomUnits, denom⟩ := by
  unfold SetBaseDenom at h ⊢
  unfold Registry.registered
  cases hl : reg.denomUnits.lookup denom with
  | none => simp [hl] at h
  | some v => simp

/-- A registration that does not return `nil` leaves the registry's units as
they were, and a registration that returns an error leaves the whole registry
as it was. -/
theorem RegisterDenom_err (denom : String) (unit : math.LegacyDec) (reg : Registry)
    (e : Error) (h : (RegisterDenom denom unit reg).2 = .err e) :
    (RegisterDenom denom unit reg).1 = reg
    ∧ (e = .invalidDenom denom ∧ ValidateDenom denom ≠ none
        ∨ e = .alreadyRegistered denom ∧ reg.registered denom = true) := by
  unfold RegisterDenom at h ⊢
  unfold Registry.registered
  cases hv : ValidateDenom denom with
  | some e1 =>
    simp only [hv] at h ⊢
    have he : e1 = .invalidDenom denom := by
      unfold ValidateDenom at hv
      split at hv
      · simpa using hv.symm
      · split at hv
        · simp at hv
        · simpa using hv.symm
    simp_all
  | none =>
    simp only [hv] at h ⊢
    cases hl : reg.denomUnits.lookup denom with
    | some v => simp_all
    | none =>
      simp only [hl] at h ⊢
      split at h
      · simp at h
      · split at h
        · simp at h
        · split at h <;> simp at h

/-- A registration ends with the symbol registered, unless the symbol is
malformed. -/
theorem RegisterDenom_registers (denom : String) (unit : math.LegacyDec) (reg : Registry) :
    ValidateDenom denom ≠ none ∨ (RegisterDenom denom unit reg).1.registered denom = true := by
  unfold RegisterDenom
  unfold Registry.registered
  cases hv : ValidateDenom denom with
  | some e1 => simp
  | none =>
    right
    simp only []
    cases hl : reg.denomUnits.lookup denom with
    | some v => simp [hl]
    | none =>
      simp only []
      split
      · simp [List.lookup]
      · split
        · simp [List.lookup]
        · split <;> simp [List.lookup]

/-- A successful registration ends with the symbol registered. -/
theorem RegisterDenom_nil_registered (denom : String) (unit : math.LegacyDec) (reg : Registry)
    (h : (RegisterDenom denom unit reg).2 = .nil) :
    ValidateDenom denom = none ∧ (RegisterDenom denom unit reg).1.registered denom = true := by
  unfold RegisterDenom at h ⊢
  unfold Registry.registered
  cases hv : ValidateDenom denom with
  | some e1 => simp [hv] at h
  | none =>
    simp only [hv] at h ⊢
    cases hl : reg.denomUnits.lookup denom with
    | some v => simp [hl] at h
    | none =>
      simp only [hl] at h ⊢
      refine ⟨trivial, ?_⟩
      split
      · simp [List.lookup]
      · split
        · simp [List.lookup]
        · split <;> simp [List.lookup]

/-- A successful registration adds the symbol at the head of the units. -/
theorem RegisterDenom_nil_units (denom : String) (unit : math.LegacyDec) (reg : Registry)
    (h : (RegisterDenom denom unit reg).2 = .nil) :
    (RegisterDenom denom unit reg).1.denomUnits = (denom, unit) :: reg.denomUnits := by
  unfold RegisterDenom at h ⊢
  split
  · simp_all
  · split
    · simp_all
    · simp only []
      split
      · rfl
      · split
        · rfl
        · split <;> rfl

/-- Registration never removes a symbol. -/
theorem RegisterDenom_keeps (denom : String) (unit : math.LegacyDec) (reg : Registry)
    (d : String) (h : reg.registered d = true) :
    (RegisterDenom denom unit reg).1.registered d = true := by
  unfold Registry.registered at h ⊢
  have hcons : (List.lookup d ((denom, unit) :: reg.denomUnits)).isSome = true := by
    simp only [List.lookup]
    split
    · rfl
    · exact h
  unfold RegisterDenom
  split
  · exact h
  · split
    · exact h
    · simp only []
      split
      · exact hcons
      · split
        · exact hcons
        · split <;> exact hcons

/-- A malformed or already registered symbol is refused, with no change. -/
theorem RegisterDenom_refused (denom : String) (unit : math.LegacyDec) (reg : Registry)
    (h : ValidateDenom denom ≠ none ∨ reg.registered denom = true) :
    ∃ e, RegisterDenom denom unit reg = (reg, .err e) := by
  unfold RegisterDenom
  unfold Registry.registered at h
  cases hv : ValidateDenom denom with
  | some e1 => exact ⟨e1, rfl⟩
  | none =>
    cases hl : reg.denomUnits.lookup denom with
    | some v => exact ⟨.alreadyRegistered denom, rfl⟩
    | none => simp [hv, hl] at h

end sdk

/-- The registry after `setBaseDenom` is the one the deferred
`sdk.SetBaseDenom(ci.Denom)` produces from what the body left. -/
theorem setBaseDenom_registry (ci : EvmCoinInfo) (reg : sdk.Registry) :
    (setBaseDenom ci reg).1 = (sdk.SetBaseDenom ci.Denom (setBaseDenomBody ci reg).1).1 := by
  unfold setBaseDenom
  generalize setBaseDenomBody ci reg = p
  obtain ⟨reg1, r⟩ := p
  cases r <;> rfl

/-- Unless the body panicked, the result of `setBaseDenom` is the result of
the deferred `sdk.SetBaseDenom(ci.Denom)`. -/
theorem setBaseDenom_of_body (ci : EvmCoinInfo) (reg : sdk.Registry)
    (h : (setBaseDenomBody ci reg).2 ≠ .panicked) :
    setBaseDenom ci reg = sdk.SetBaseDenom ci.Denom (setBaseDenomBody ci reg).1 := by
  unfold setBaseDenom
  generalize setBaseDenomBody ci reg = p at h ⊢
  obtain ⟨reg1, r⟩ := p
  cases r <;> simp_all

/-- A `setBaseDenom` that returns `nil` had a body that did not panic and a
deferred `sdk.SetBaseDenom(ci.Denom)` that returned `nil`. -/
theorem setBaseDenom_nil (ci : EvmCoinInfo) (reg : sdk.Registry)
    (h : (setBaseDenom ci reg).2 = .nil) :
    (setBaseDenomBody ci reg).2 ≠ .panicked
    ∧ (sdk.SetBaseDenom ci.Denom (setBaseDenomBody ci reg).1).2 = .nil := by
  unfold setBaseDenom at h
  generalize setBaseDenomBody ci reg = p at h ⊢
  obtain ⟨reg1, r⟩ := p
  cases r <;> simp_all

/-- When registration of the display unit returns an error, the body of
`setBaseDenom` returns it without attempting the base unit. -/
theorem setBaseDenomBody_of_err (ci : EvmCoinInfo) (reg reg1 : sdk.Registry) (e : Error)
    (h : sdk.RegisterDenom ci.DisplayDenom math.LegacyOneDec reg = (reg1, .err e)) :
    setBaseDenomBody ci reg = (reg1, .err e) := by
  unfold setBaseDenomBody
  rw [h]

/-- The body of `setBaseDenom` never removes a symbol. -/
theorem setBaseDenomBody_keeps (ci : EvmCoinInfo) (reg : sdk.Registry) (d : String)
    (h : reg.registered d = true) : (setBaseDenomBody ci reg).1.registered d = true := by
  have h1 := sdk.RegisterDenom_keeps ci.DisplayDenom math.LegacyOneDec reg d h
  unfold setBaseDenomBody
  generalize sdk.RegisterDenom ci.DisplayDenom math.LegacyOneDec reg = p at h1 ⊢
  obtain ⟨reg1, r⟩ := p
  cases r with
  | nil =>
    simp only []
    cases math.LegacyNewDecWithPrec 1 (ci.Decimals : Int) with
    | none => exact h1
    | some unit => exact sdk.RegisterDenom_keeps ci.Denom unit reg1 d h1
  | err e => exact h1
  | panicked => exact h1

/-- After a body of `setBaseDenom` that did not panic, the display symbol is
malformed or registered. -/
theorem setBaseDenomBody_display (ci : EvmCoinInfo) (reg : sdk.Registry)
    (h : (setBaseDenomBody ci reg).2 ≠ .panicked) :
    sdk.ValidateDenom ci.DisplayDenom ≠ none
    ∨ (setBaseDenomBody ci reg).1.registered ci.DisplayDenom = true := by
  have h1 := sdk.RegisterDenom_registers ci.DisplayDenom math.LegacyOneDec reg
  rcases h1 with h1 | h1
  · exact Or.inl h1
  · right
    unfold setBaseDenomBody at h ⊢
    generalize sdk.RegisterDenom ci.DisplayDenom math.LegacyOneDec reg = p at h h1 ⊢
    obtain ⟨reg1, r⟩ := p
    cases r with
    | nil =>
      simp only [] at h ⊢
      cases math.LegacyNewDecWithPrec 1 (ci.Decimals : Int) with
      | none => exact h1
      | some unit => exact sdk.RegisterDenom_keeps ci.Denom unit reg1 _ h1
    | err e => exact h1
    | panicked => exact h1

/-- C8 as stated fails.  (1) On the catalog left by a boot with `atom` (base
unit `uatom`), the coin info with base symbol `ATOM` and the malformed display
symbol `AT OM`: registration of the display unit fails with the invalid-symbol
error, yet `setBaseDenom` returns success and moves the base-unit pointer
from `uatom` to `ATOM`.  (2) On the empty catalog with base symbol `uatom`:
an error is returned, but it is the not-registered error of the deferred call,
not the registration error.  (3) On the empty catalog with the malformed base
symbol `u`: an error is returned, and the base-unit pointer has moved from
unset to `ATOM`. -/
theorem C8_registration_error_not_propagated :
    ((sdk.RegisterDenom "AT OM" math.LegacyOneDec State.booted.registry).2
        = .err (.invalidDenom "AT OM")
      ∧ State.booted.registry.baseDenom = "uatom"
      ∧ setBaseDenom ⟨"ATOM", "AT OM", 6⟩ State.booted.registry
        = (⟨State.booted.registry.denomUnits, "ATOM"⟩, .nil))
    ∧ ((sdk.RegisterDenom "AT OM" math.LegacyOneDec sdk.Registry.empty).2
        = .err (.invalidDenom "AT OM")
      ∧ setBaseDenom ⟨"uatom", "AT OM", 6⟩ sdk.Registry.empty
        = (sdk.Registry.empty, .err (.notRegistered "uatom")))
    ∧ ((sdk.RegisterDenom "u" ⟨10 ^ 12⟩
          (sdk.RegisterDenom "ATOM" math.LegacyOneDec sdk.Registry.empty).1).2
        = .err (.invalidDenom "u")
      ∧ sdk.Registry.empty.baseDenom = ""
      ∧ setBaseDenom ⟨"u", "ATOM", 6⟩ sdk.Registry.empty
        = (⟨[("ATOM", math.LegacyOneDec)], "ATOM"⟩, .err (.notRegistered "u"))) := by
  decide

/-- C8, amended.  Let registration of the display unit, or (after the display
unit was registered) of the base unit, fail with an error `e` other than
already-registered.  Then `e` is not what `setBaseDenom` returns; the deferred
`sdk.SetBaseDenom(ci.Denom)` decides.  If the base symbol was not in the
catalog before the call, the not-registered error is returned and the catalog,
base-unit pointer included, is as registration of the display unit left it
(unchanged when that registration was the one that failed).  If the base
symbol was in the catalog, success is returned, the base-unit pointer is the
base symbol, and the units are as registration of the display unit left
them. -/
theorem C8_fatal_registration (ci : EvmCoinInfo) (reg : sdk.Registry) (e : Error)
    (hfatal : ∀ d, e ≠ .alreadyRegistered d)
    (hfail : (sdk.RegisterDenom ci.DisplayDenom math.LegacyOneDec reg).2 = .err e
      ∨ ((sdk.RegisterDenom ci.DisplayDenom math.LegacyOneDec reg).2 = .nil
        ∧ ∃ unit, math.LegacyNewDecWithPrec 1 (ci.Decimals : Int) = some unit
          ∧ (sdk.RegisterDenom ci.Denom unit
              (sdk.RegisterDenom ci.DisplayDenom math.LegacyOneDec reg).1).2 = .err e)) :
    (reg.registered ci.Denom = false →
        setBaseDenom ci reg
          = ((sdk.RegisterDenom ci.DisplayDenom math.LegacyOneDec reg).1,
              .err (.notRegistered ci.Denom)))
    ∧ (reg.registered ci.Denom = true →
        setBaseDenom ci reg
          = (⟨(sdk.RegisterDenom ci.DisplayDenom math.LegacyOneDec reg).1.denomUnits, ci.Denom⟩,
              .nil))
    ∧ ((sdk.RegisterDenom ci.DisplayDenom math.LegacyOneDec reg).2 = .err e →
        (sdk.RegisterDenom ci.DisplayDenom math.LegacyOneDec reg).1 = reg) := by
  have hbody : setBaseDenomBody ci reg
      = ((sdk.RegisterDenom ci.DisplayDenom math.LegacyOneDec reg).1, .err e) := by
    rcases hfail with h1 | ⟨h1, unit, hu, h2⟩
    · unfold setBaseDenomBody
      generalize sdk.RegisterDenom ci.DisplayDenom math.LegacyOneDec reg = p at h1 ⊢
      obtain ⟨reg1, r⟩ := p
      simp only at h1
      subst h1
      rfl
    · have h3 := (sdk.RegisterDenom_err ci.Denom unit _ e h2).1
      unfold setBaseDenomBody
      generalize sdk.RegisterDenom ci.DisplayDenom math.LegacyOneDec reg = p at h1 h2 h3 ⊢
      obtain ⟨reg1, r⟩ := p
      simp only at h1 h2 h3
      subst h1
      simp only [hu]
      exact Prod.ext h3 h2
  have hset : setBaseDenom ci reg
      = sdk.SetBaseDenom ci.Denom (sdk.RegisterDenom ci.DisplayDenom math.LegacyOneDec reg).1 := by
    rw [setBaseDenom_of_body ci reg (by simp [hbody]), hbody]
  refine ⟨fun hno => ?_, fun hyes => ?_, fun h1 => (sdk.RegisterDenom_err _ _ _ e h1).1⟩
  · rw [hset]
    apply sdk.SetBaseDenom_of_not_registered
    rcases hfail with h1 | ⟨h1, unit, hu, h2⟩
    · rw [(sdk.RegisterDenom_err _ _ _ e h1).1]
      simpa [sdk.Registry.registered] using hno
    · have hd := (sdk.RegisterDenom_nil_registered _ _ _ h1).1
      have hb : sdk.ValidateDenom ci.Denom ≠ none := by
        rcases (sdk.RegisterDenom_err ci.Denom unit _ e h2).2 with ⟨_, hv⟩ | ⟨he, _⟩
        · exact hv
        · exact absurd he (hfatal _)
      have hne : ci.Denom ≠ ci.DisplayDenom := fun heq => hb (heq ▸ hd)
      rw [sdk.RegisterDenom_nil_units _ _ _ h1]
      have hno2 : reg.denomUnits.lookup ci.Denom = none := by
        simpa [sdk.Registry.registered] using hno
      have hbeq : (ci.Denom == ci.DisplayDenom) = false := beq_false_of_ne hne
      simp only [List.lookup, hbeq, hno2]
  · rw [hset, sdk.SetBaseDenom_of_registered _ _ (sdk.RegisterDenom_keeps _ _ _ _ hyes)]

/-- C8 amended, at concrete inputs: a malformed display symbol with an
unregistered base symbol (error, catalog unchanged), and a malformed base
symbol after a successful display registration (error, catalog as the display
registration left it). -/
theorem C8_fatal_registration_witness :
    setBaseDenom ⟨"uatom", "AT OM", 6⟩ sdk.Registry.empty
        = (sdk.Registry.empty, .err (.notRegistered "uatom"))
    ∧ setBaseDenom ⟨"u", "ATOM", 6⟩ sdk.Registry.empty
        = (⟨[("ATOM", math.LegacyOneDec)], "ATOM"⟩, .err (.notRegistered "u")) :=
  ⟨((C8_fatal_registration ⟨"uatom", "AT OM", 6⟩ sdk.Registry.empty (.invalidDenom "AT OM")
      (by simp) (Or.inl (by decide))).1 (by decide)).trans (by decide),
   ((C8_fatal_registration ⟨"u", "ATOM", 6⟩ sdk.Registry.empty (.invalidDenom "u")
      (by simp) (Or.inr ⟨by decide, ⟨10 ^ 12⟩, by decide, by decide⟩)).1 (by decide)).trans
      (by decide)⟩

/-- C9.  For every coin info and every catalog, if `setBaseDenom` returns
success then the base-unit pointer is the base symbol `ci.Denom` and that
symbol is registered in the catalog (whether this call registered it or it
was registered before). -/
theorem C9_success_sets_base (ci : EvmCoinInfo) (reg : sdk.Registry)
    (h : (setBaseDenom ci reg).2 = .nil) :
    (setBaseDenom ci reg).1.baseDenom = ci.Denom
    ∧ (setBaseDenom ci reg).1.registered ci.Denom = true := by
  obtain ⟨_, h2⟩ := setBaseDenom_nil ci reg h
  obtain ⟨hreg, heq⟩ := sdk.SetBaseDenom_nil _ _ h2
  rw [setBaseDenom_registry, heq]
  exact ⟨rfl, hreg⟩

/-- C9 at a concrete input: `uatom` is already registered and the base-unit
pointer is at `ATOM`; the call succeeds and the pointer is `uatom`. -/
theorem C9_success_sets_base_witness :
    (⟨[("uatom", ⟨10 ^ 12⟩), ("ATOM", ⟨10 ^ 18⟩)], "ATOM"⟩ : sdk.Registry).registered "uatom"
        = true
    ∧ (setBaseDenom atom ⟨[("uatom", ⟨10 ^ 12⟩), ("ATOM", ⟨10 ^ 18⟩)], "ATOM"⟩).2 = .nil
    ∧ (setBaseDenom atom ⟨[("uatom", ⟨10 ^ 12⟩), ("ATOM", ⟨10 ^ 18⟩)], "ATOM"⟩).1.baseDenom
        = "uatom"
    ∧ (setBaseDenom atom ⟨[("uatom", ⟨10 ^ 12⟩), ("ATOM", ⟨10 ^ 18⟩)],
          "ATOM"⟩).1.registered "uatom" = true :=
  ⟨by decide, by decide,
   C9_success_sets_base atom ⟨[("uatom", ⟨10 ^ 12⟩), ("ATOM", ⟨10 ^ 18⟩)], "ATOM"⟩ (by decide)⟩

/-- C10.  If a call of `setBaseDenom` succeeds, a second call with the same
coin info on the resulting catalog also returns success and leaves that
catalog exactly as it was: the registered units and their values are
unchanged and the base-unit pointer is still the base symbol.  In the second
call registration of the display unit is refused, as already registered when
the display symbol is well formed. -/
theorem C10_repeat_is_noop (ci : EvmCoinInfo) (reg : sdk.Registry)
    (h : (setBaseDenom ci reg).2 = .nil) :
    setBaseDenom ci (setBaseDenom ci reg).1 = ((setBaseDenom ci reg).1, .nil)
    ∧ (setBaseDenom ci (setBaseDenom ci reg).1).1.baseDenom = ci.Denom
    ∧ (sdk.ValidateDenom ci.DisplayDenom = none →
        sdk.RegisterDenom ci.DisplayDenom math.LegacyOneDec (setBaseDenom ci reg).1
          = ((setBaseDenom ci reg).1, .err (.alreadyRegistered ci.DisplayDenom))) := by
  obtain ⟨hnp, h2⟩ := setBaseDenom_nil ci reg h
  obtain ⟨hreg, heq⟩ := sdk.SetBaseDenom_nil _ _ h2
  have hdisp := setBaseDenomBody_display ci reg hnp
  have h1 : (setBaseDenom ci reg).1 = ⟨(setBaseDenomBody ci reg).1.denomUnits, ci.Denom⟩ := by
    rw [setBaseDenom_registry, heq]
  generalize setBaseDenom ci reg = p at h h1 ⊢
  obtain ⟨reg1, r⟩ := p
  simp only at h h1
  subst h1
  have hdisp1 : sdk.ValidateDenom ci.DisplayDenom ≠ none
      ∨ (sdk.Registry.mk (setBaseDenomBody ci reg).1.denomUnits ci.Denom).registered
          ci.DisplayDenom = true := hdisp
  obtain ⟨e, he⟩ := sdk.RegisterDenom_refused ci.DisplayDenom math.LegacyOneDec _ hdisp1
  have hbody : setBaseDenomBody ci ⟨(setBaseDenomBody ci reg).1.denomUnits, ci.Denom⟩
      = (⟨(setBaseDenomBody ci reg).1.denomUnits, ci.Denom⟩, .err e) := by
    exact setBaseDenomBody_of_err ci _ _ e he
  have hsecond : setBaseDenom ci ⟨(setBaseDenomBody ci reg).1.denomUnits, ci.Denom⟩
      = (⟨(setBaseDenomBody ci reg).1.denomUnits, ci.Denom⟩, .nil) := by
    rw [setBaseDenom_of_body _ _ (by simp [hbody]), hbody]
    exact sdk.SetBaseDenom_of_registered _ _ hreg
  refine ⟨hsecond, by rw [hsecond], fun hv => ?_⟩
  rw [he]
  have := (sdk.RegisterDenom_err _ _ _ e (by rw [he])).2
  rcases this with ⟨_, hbad⟩ | ⟨hdup, _⟩
  · exact absurd hv hbad
  · rw [hdup]

/-- C10 at a concrete input: the first call on the empty catalog registers
`ATOM` at 1 and `uatom` at `10^-6` (held as `10^12`) and succeeds; the second
call returns success on an unchanged catalog. -/
theorem C10_repeat_is_noop_witness :
    setBaseDenom atom sdk.Registry.empty
        = (⟨[("uatom", ⟨10 ^ 12⟩), ("ATOM", ⟨10 ^ 18⟩)], "uatom"⟩, .nil)
    ∧ setBaseDenom atom (setBaseDenom atom sdk.Registry.empty).1
        = ((setBaseDenom atom sdk.Registry.empty).1, .nil)
    ∧ (setBaseDenom atom (setBaseDenom atom sdk.Registry.empty).1).1.baseDenom = "uatom" :=
  ⟨by decide,
   (C10_repeat_is_noop atom sdk.Registry.empty (by decide)).1,
   (C10_repeat_is_noop atom sdk.Registry.empty (by decide)).2.1⟩

/-- C11 as stated fails.  On the catalog left by `setBaseDenom` for the coin
info with base `aatom`, display `ATOM`, 18 decimals, a call with `atom`
(display `ATOM` already registered, base `uatom` not yet registered) gets the
already-registered report for the display unit, and then ends with an error,
with `uatom` not registered and the base-unit pointer still at `aatom`. -/
theorem C11_base_not_registered_after_duplicate_display :
    setBaseDenom ⟨"aatom", "ATOM", 18⟩ sdk.Registry.empty
        = (⟨[("aatom", ⟨1⟩), ("ATOM", ⟨10 ^ 18⟩)], "aatom"⟩, .nil)
    ∧ sdk.RegisterDenom "ATOM" math.LegacyOneDec ⟨[("aatom", ⟨1⟩), ("ATOM", ⟨10 ^ 18⟩)], "aatom"⟩
        = (⟨[("aatom", ⟨1⟩), ("ATOM", ⟨10 ^ 18⟩)], "aatom"⟩, .err (.alreadyRegistered "ATOM"))
    ∧ (⟨[("aatom", ⟨1⟩), ("ATOM", ⟨10 ^ 18⟩)], "aatom"⟩ : sdk.Registry).registered "uatom" = false
    ∧ setBaseDenom atom ⟨[("aatom", ⟨1⟩), ("ATOM", ⟨10 ^ 18⟩)], "aatom"⟩
        = (⟨[("aatom", ⟨1⟩), ("ATOM", ⟨10 ^ 18⟩)], "aatom"⟩, .err (.notRegistered "uatom"))
    ∧ (setBaseDenom atom ⟨[("aatom", ⟨1⟩), ("ATOM", ⟨10 ^ 18⟩)], "aatom"⟩).1.registered "uatom"
        = false := by
  decide

/-- C11, amended.  When registration of the display unit reports
already-registered, `setBaseDenom` does not attempt registration of the base
unit: its body ends there with the catalog unchanged, and only the deferred
`sdk.SetBaseDenom(ci.Denom)` follows.  With a base symbol that is not yet
registered the call returns the not-registered error and leaves the catalog,
base-unit pointer included, unchanged; with a base symbol that is already
registered it returns no error, the base-unit pointer is the base symbol and
the units are unchanged. -/
theorem C11_duplicate_display (ci : EvmCoinInfo) (reg : sdk.Registry)
    (hdup : (sdk.RegisterDenom ci.DisplayDenom math.LegacyOneDec reg).2
      = .err (.alreadyRegistered ci.DisplayDenom)) :
    setBaseDenomBody ci reg = (reg, .err (.alreadyRegistered ci.DisplayDenom))
    ∧ (reg.registered ci.Denom = false →
        setBaseDenom ci reg = (reg, .err (.notRegistered ci.Denom)))
    ∧ (reg.registered ci.Denom = true →
        setBaseDenom ci reg = (⟨reg.denomUnits, ci.Denom⟩, .nil)) := by
  have hreg := (sdk.RegisterDenom_err _ _ _ _ hdup).1
  have hbody : setBaseDenomBody ci reg = (reg, .err (.alreadyRegistered ci.DisplayDenom)) :=
    setBaseDenomBody_of_err ci reg reg _ (Prod.ext hreg hdup)
  have hset : setBaseDenom ci reg = sdk.SetBaseDenom ci.Denom reg := by
    rw [setBaseDenom_of_body ci reg (by simp [hbody]), hbody]
  refine ⟨hbody, fun hno => ?_, fun hyes => ?_⟩
  · rw [hset]
    exact sdk.SetBaseDenom_of_not_registered _ _ (by simpa [sdk.Registry.registered] using hno)
  · rw [hset]
    exact sdk.SetBaseDenom_of_registered _ _ hyes

/-- C11 amended, at concrete inputs: display `ATOM` registered and base
`uatom` not registered (error, nothing changes), and both registered with the
pointer at `ATOM` (success, pointer moved to `uatom`). -/
theorem C11_duplicate_display_witness :
    setBaseDenom atom ⟨[("aatom", ⟨1⟩), ("ATOM", ⟨10 ^ 18⟩)], "aatom"⟩
        = (⟨[("aatom", ⟨1⟩), ("ATOM", ⟨10 ^ 18⟩)], "aatom"⟩, .err (.notRegistered "uatom"))
    ∧ setBaseDenom atom ⟨[("uatom", ⟨10 ^ 12⟩), ("ATOM", ⟨10 ^ 18⟩)], "ATOM"⟩
        = (⟨[("uatom", ⟨10 ^ 12⟩), ("ATOM", ⟨10 ^ 18⟩)], "uatom"⟩, .nil) :=
  ⟨(C11_duplicate_display atom ⟨[("aatom", ⟨1⟩), ("ATOM", ⟨10 ^ 18⟩)], "aatom"⟩
      (by decide)).2.1 (by decide),
   (C11_duplicate_display atom ⟨[("uatom", ⟨10 ^ 12⟩), ("ATOM", ⟨10 ^ 18⟩)], "ATOM"⟩
      (by decide)).2.2 (by decide)⟩

/-- The deferred call returns `nil` or its own not-registered error. -/
theorem SetBaseDenom_result (denom : String) (reg : sdk.Registry) :
    (sdk.SetBaseDenom denom reg).2 = .nil
    ∨ (sdk.SetBaseDenom denom reg).2 = .err (.notRegistered denom) := by
  unfold sdk.SetBaseDenom
  split <;> simp

/-- The values of the two decimals that `setBaseDenom` builds: 1 for the
display unit, and `10^(-decimals)` for the base unit when `decimals ≤ 18`. -/
theorem LegacyNewDecWithPrec_value (decimals : Nat) (h : decimals ≤ 18) :
    math.LegacyNewDecWithPrec 1 (decimals : Int) = some ⟨10 ^ (18 - decimals)⟩
    ∧ (math.LegacyDec.mk (10 ^ (18 - decimals))).toRat = 1 / 10 ^ decimals := by
  constructor
  · have h1 : ¬ ((decimals : Int) < 0 ∨ (18 : Int) < (decimals : Int)) := by omega
    have h2 : ((18 : Int) - (decimals : Int)).toNat = 18 - decimals := by omega
    simp only [math.LegacyNewDecWithPrec, math.LegacyPrecision, h1, if_false, h2, one_mul]
  · have h3 : (10 : ℚ) ^ 18 = 10 ^ (18 - decimals) * 10 ^ decimals := by
      rw [← pow_add]
      congr 1
      omega
    simp only [math.LegacyDec.toRat]
    push_cast
    rw [h3]
    field_simp

/-- C14 as stated fails for a coin info with more than 18 decimals: on the
empty catalog, with 19 decimals, the display unit `ATOM` is registered at 1,
but building the base unit value panics, no registration of `uatom` is
requested, and `setBaseDenom` panics with `uatom` unregistered. -/
theorem C14_nineteen_decimals_panics :
    sdk.RegisterDenom "ATOM" math.LegacyOneDec sdk.Registry.empty
        = (⟨[("ATOM", ⟨10 ^ 18⟩)], "ATOM"⟩, .nil)
    ∧ math.LegacyNewDecWithPrec 1 19 = none
    ∧ setBaseDenomBody ⟨"uatom", "ATOM", 19⟩ sdk.Registry.empty
        = (⟨[("ATOM", ⟨10 ^ 18⟩)], "ATOM"⟩, .panicked)
    ∧ setBaseDenom ⟨"uatom", "ATOM", 19⟩ sdk.Registry.empty
        = (⟨[("ATOM", ⟨10 ^ 18⟩)], "ATOM"⟩, .panicked)
    ∧ (setBaseDenom ⟨"uatom", "ATOM", 19⟩ sdk.Registry.empty).1.registered "uatom" = false := by
  decide

/-- C14, amended.  For every coin info with at most 18 decimals and every
catalog: `setBaseDenom` requests registration of the display symbol with unit
value exactly 1; when that registration does not succeed nothing else is
requested; when it succeeds, registration of the base symbol is requested
with a unit value that is exactly `10^(-decimals)`; and when both succeed the
call returns success with the base symbol at that value and the display
symbol at 1 added to the units, and the base-unit pointer at the base symbol.
Scenario: for `atom` and chain id 9001, on the empty catalog and with an
engine whose `Configure` accepts, `EvmAppOptionsWithDynamicConfig` leaves
`ATOM` at 1, `uatom` at `10^-6`, base unit `uatom`, the engine as `Configure`
run with the parameters resolved for 9001 left it, and the Seal Flag true. -/
theorem C14_registered_precisions (ci : EvmCoinInfo) (reg : sdk.Registry)
    (hdec : ci.Decimals ≤ 18) :
    math.LegacyOneDec.toRat = 1
    ∧ (∃ unit, math.LegacyNewDecWithPrec 1 (ci.Decimals : Int) = some unit
        ∧ unit.toRat = 1 / 10 ^ ci.Decimals
        ∧ ((sdk.RegisterDenom ci.DisplayDenom math.LegacyOneDec reg).2 ≠ .nil →
            setBaseDenomBody ci reg = sdk.RegisterDenom ci.DisplayDenom math.LegacyOneDec reg)
        ∧ ((sdk.RegisterDenom ci.DisplayDenom math.LegacyOneDec reg).2 = .nil →
            setBaseDenomBody ci reg
              = sdk.RegisterDenom ci.Denom unit
                  (sdk.RegisterDenom ci.DisplayDenom math.LegacyOneDec reg).1)
        ∧ ((setBaseDenomBody ci reg).2 = .nil →
            setBaseDenom ci reg
              = (⟨(ci.Denom, unit) :: (ci.DisplayDenom, math.LegacyOneDec) :: reg.denomUnits,
                  ci.Denom⟩, .nil)))
    ∧ (∀ (Act Cfg Eng : Type) (env : Configurator Act Cfg Eng) (acts : Act) (eng : Eng),
        (env.Configure acts (env.DefaultChainConfig 9001) atom eng).2 = .nil →
        EvmAppOptionsWithDynamicConfig env 9001 atom acts ⟨false, sdk.Registry.empty, eng⟩
          = (⟨true, ⟨[("uatom", ⟨10 ^ 12⟩), ("ATOM", ⟨10 ^ 18⟩)], "uatom"⟩,
              (env.Configure acts (env.DefaultChainConfig 9001) atom eng).1⟩, .nil)
        ∧ (math.LegacyDec.mk (10 ^ 18)).toRat = 1
        ∧ (math.LegacyDec.mk (10 ^ 12)).toRat = 1 / 10 ^ 6) := by
  obtain ⟨hunit, hval⟩ := LegacyNewDecWithPrec_value ci.Decimals hdec
  have hone : math.LegacyOneDec.toRat = 1 := by
    simp only [math.LegacyDec.toRat, math.LegacyOneDec]
    norm_num
  have hbody1 : (sdk.RegisterDenom ci.DisplayDenom math.LegacyOneDec reg).2 ≠ .nil →
      setBaseDenomBody ci reg = sdk.RegisterDenom ci.DisplayDenom math.LegacyOneDec reg := by
    intro h
    unfold setBaseDenomBody
    generalize sdk.RegisterDenom ci.DisplayDenom math.LegacyOneDec reg = p at h ⊢
    obtain ⟨reg1, r⟩ := p
    cases r <;> simp_all
  have hbody2 : (sdk.RegisterDenom ci.DisplayDenom math.LegacyOneDec reg).2 = .nil →
      setBaseDenomBody ci reg
        = sdk.RegisterDenom ci.Denom ⟨10 ^ (18 - ci.Decimals)⟩
            (sdk.RegisterDenom ci.DisplayDenom math.LegacyOneDec reg).1 := by
    intro h
    unfold setBaseDenomBody
    generalize sdk.RegisterDenom ci.DisplayDenom math.LegacyOneDec reg = p at h ⊢
    obtain ⟨reg1, r⟩ := p
    simp only at h
    subst h
    simp only [hunit]
  refine ⟨hone, ⟨⟨10 ^ (18 - ci.Decimals)⟩, hunit, hval, hbody1, hbody2, fun hnil => ?_⟩, ?_⟩
  · have hd : (sdk.RegisterDenom ci.DisplayDenom math.LegacyOneDec reg).2 = .nil := by
      by_contra hne
      rw [hbody1 hne] at hnil
      exact hne hnil
    have hb := hbody2 hd
    rw [hb] at hnil
    have hu1 := sdk.RegisterDenom_nil_units _ _ _ hd
    have hu2 := sdk.RegisterDenom_nil_units _ _ _ hnil
    have hr2 := (sdk.RegisterDenom_nil_registered _ _ _ hnil).2
    rw [← hb] at hu2 hr2
    have hnp : (setBaseDenomBody ci reg).2 ≠ .panicked := by
      rw [hb, hnil]
      simp
    rw [setBaseDenom_of_body ci reg hnp, sdk.SetBaseDenom_of_registered _ _ hr2, hu2, hu1]
  · intro Act Cfg Eng env acts eng hacc
    have hs : setBaseDenom atom sdk.Registry.empty
        = (⟨[("uatom", ⟨10 ^ 12⟩), ("ATOM", ⟨10 ^ 18⟩)], "uatom"⟩, .nil) := by decide
    refine ⟨?_, ?_, ?_⟩
    · simp [EvmAppOptionsWithDynamicConfig, EvmAppOptionsWithDynamicConfigWithReset, hs, hacc]
    · simp only [math.LegacyDec.toRat]
      norm_num
    · simp only [math.LegacyDec.toRat]
      norm_num

/-- C14 amended, at the scenario's input: `atom` has 6 decimals, both
registrations succeed on the empty catalog, and with the concrete accepting
engine the first dynamic call ends in the booted state, configured for 9001
and sealed. -/
theorem C14_registered_precisions_witness :
    atom.Decimals ≤ 18
    ∧ (setBaseDenomBody atom sdk.Registry.empty).2 = .nil
    ∧ setBaseDenom atom sdk.Registry.empty
        = (⟨[("uatom", ⟨10 ^ 12⟩), ("ATOM", ⟨10 ^ 18⟩)], "uatom"⟩, .nil)
    ∧ (math.LegacyDec.mk (10 ^ 18)).toRat = 1
    ∧ (math.LegacyDec.mk (10 ^ 12)).toRat = 1 / 10 ^ 6
    ∧ EvmAppOptionsWithDynamicConfig specEngine 9001 atom [] State.initial
        = (⟨true, ⟨[("uatom", ⟨10 ^ 12⟩), ("ATOM", ⟨10 ^ 18⟩)], "uatom"⟩,
            ⟨some (9001, atom, [])⟩⟩, .nil) :=
  ⟨by decide, by decide, by decide,
   ((C14_registered_precisions atom sdk.Registry.empty (by decide)).2.2
      (List Nat) Nat Engine specEngine [] ⟨none⟩ (by decide)).2.1,
   ((C14_registered_precisions atom sdk.Registry.empty (by decide)).2.2
      (List Nat) Nat Engine specEngine [] ⟨none⟩ (by decide)).2.2,
   ((C14_registered_precisions atom sdk.Registry.empty (by decide)).2.2
      (List Nat) Nat Engine specEngine [] ⟨none⟩ (by decide)).1⟩

/-- C16 as stated fails on the panicking path.  On the catalog left by a boot
with `atom`, a coin info with base `uatom` (registered), a fresh display
symbol `ATOM2` and 19 decimals: the deferred `sdk.SetBaseDenom("uatom")`
succeeds on what the body left, but `setBaseDenom` does not return success:
it panics. -/
theorem C16_panic_with_deferred_success :
    setBaseDenomBody ⟨"uatom", "ATOM2", 19⟩ State.booted.registry
        = (⟨("ATOM2", ⟨10 ^ 18⟩) :: State.booted.registry.denomUnits, "uatom"⟩, .panicked)
    ∧ (sdk.SetBaseDenom "uatom"
          (setBaseDenomBody ⟨"uatom", "ATOM2", 19⟩ State.booted.registry).1).2 = .nil
    ∧ (setBaseDenom ⟨"uatom", "ATOM2", 19⟩ State.booted.registry).2 = .panicked
    ∧ (setBaseDenom ⟨"uatom", "ATOM2", 19⟩ State.booted.registry).2 ≠ .nil := by
  decide

/-- C16, amended.  For every coin info and every catalog on which
`setBaseDenom` returns (does not panic), what it returns is exactly the
result of the deferred `sdk.SetBaseDenom(ci.Denom)`, run on the catalog the
registrations left: an invalid-symbol or already-registered error of
`sdk.RegisterDenom` is never the value returned, and `setBaseDenom` returns
success if and only if `sdk.SetBaseDenom` does. -/
theorem C16_result_is_deferred (ci : EvmCoinInfo) (reg : sdk.Registry)
    (hret : (setBaseDenom ci reg).2 ≠ .panicked) :
    setBaseDenom ci reg = sdk.SetBaseDenom ci.Denom (setBaseDenomBody ci reg).1
    ∧ (∀ d, (setBaseDenom ci reg).2 ≠ .err (.invalidDenom d)
        ∧ (setBaseDenom ci reg).2 ≠ .err (.alreadyRegistered d))
    ∧ ((setBaseDenom ci reg).2 = .nil
        ↔ (sdk.SetBaseDenom ci.Denom (setBaseDenomBody ci reg).1).2 = .nil) := by
  have hbody : (setBaseDenomBody ci reg).2 ≠ .panicked := by
    intro h
    apply hret
    unfold setBaseDenom
    generalize setBaseDenomBody ci reg = p at h ⊢
    obtain ⟨reg1, r⟩ := p
    simp only at h
    subst h
    rfl
  have heq := setBaseDenom_of_body ci reg hbody
  refine ⟨heq, fun d => ?_, by rw [heq]⟩
  rw [heq]
  rcases SetBaseDenom_result ci.Denom (setBaseDenomBody ci reg).1 with h | h <;> rw [h] <;> simp

/-- C16 amended, at concrete inputs: a malformed display symbol with a
registered base symbol (the invalid-symbol error is replaced by success), and
a duplicate display symbol with an unregistered base symbol (the
already-registered error is replaced by not-registered). -/
theorem C16_result_is_deferred_witness :
    (sdk.RegisterDenom "AT OM" math.LegacyOneDec State.booted.registry).2
        = .err (.invalidDenom "AT OM")
    ∧ setBaseDenom ⟨"uatom", "AT OM", 6⟩ State.booted.registry
        = sdk.SetBaseDenom "uatom" State.booted.registry
    ∧ (setBaseDenom ⟨"uatom", "AT OM", 6⟩ State.booted.registry).2 = .nil
    ∧ (sdk.RegisterDenom "ATOM" math.LegacyOneDec State.booted.registry).2
        = .err (.alreadyRegistered "ATOM")
    ∧ (setBaseDenom ⟨"aatom", "ATOM", 18⟩ State.booted.registry).2
        = .err (.notRegistered "aatom") :=
  ⟨by decide,
   (C16_result_is_deferred ⟨"uatom", "AT OM", 6⟩ State.booted.registry (by decide)).1.trans
     (by decide),
   (C16_result_is_deferred ⟨"uatom", "AT OM", 6⟩ State.booted.registry (by decide)).2.2.mpr
     (by decide),
   by decide,
   (congrArg Prod.snd
      (C16_result_is_deferred ⟨"aatom", "ATOM", 18⟩ State.booted.registry (by decide)).1).trans
     (by decide)⟩

/-! ## The seal gate -/

section SealGate

variable {Act Cfg Eng : Type}

/-- The reset-capable dynamic path copies the Seal Flag through. -/
theorem withReset_sealed (env : Configurator Act Cfg Eng) (chainID : Nat) (ci : EvmCoinInfo)
    (acts : Act) (withReset : Bool) (s : State Eng) :
    (EvmAppOptionsWithDynamicConfigWithReset env chainID ci acts withReset s).1.sealed
      = s.sealed := by
  simp only [EvmAppOptionsWithDynamicConfigWithReset]
  rcases setBaseDenom ci s.registry with ⟨reg, r⟩
  cases r <;> rfl

/-- The reset-capable dynamic path run from a state with another Seal Flag. -/
theorem withReset_flag (env : Configurator Act Cfg Eng) (chainID : Nat) (ci : EvmCoinInfo)
    (acts : Act) (withReset : Bool) (s : State Eng) (b : Bool) :
    EvmAppOptionsWithDynamicConfigWithReset env chainID ci acts withReset
        ⟨b, s.registry, s.engine⟩
      = (⟨b, (EvmAppOptionsWithDynamicConfigWithReset env chainID ci acts withReset s).1.registry,
            (EvmAppOptionsWithDynamicConfigWithReset env chainID ci acts withReset s).1.engine⟩,
          (EvmAppOptionsWithDynamicConfigWithReset env chainID ci acts withReset s).2) := by
  simp only [EvmAppOptionsWithDynamicConfigWithReset]
  rcases setBaseDenom ci s.registry with ⟨reg, r⟩
  cases r <;> rfl

/-- C1 (evaluation at the failing input).  From the initial, unsealed state
with a map that contains chain id 9001, `EvmAppOptionsWithConfig` returns
success with the Seal Flag set but with the catalog still empty and the engine
still unconfigured, whereas `EvmAppOptionsWithDynamicConfig` called from the
same state with the looked-up coin info registers `ATOM` and `uatom`, sets the
base unit to `uatom` and configures the engine for 9001. -/
theorem C1_legacy_entry_applies_nothing :
    EvmAppOptionsWithConfig specEngine 9001 [(9001, atom)] [] State.initial
      = (⟨true, sdk.Registry.empty, ⟨none⟩⟩, .nil)
    ∧ EvmAppOptionsWithDynamicConfig specEngine 9001 atom [] State.initial
      = (State.booted, .nil)
    ∧ (EvmAppOptionsWithConfig specEngine 9001 [(9001, atom)] [] State.initial).1
      ≠ (EvmAppOptionsWithDynamicConfig specEngine 9001 atom [] State.initial).1 := by
  decide

/-- C2.  When the Seal Flag is true, `EvmAppOptionsWithConfig` and
`EvmAppOptionsWithDynamicConfig` return success for every argument and leave
the whole state (catalog, base-unit pointer, engine configuration, Seal Flag)
as it was. -/
theorem C2_sealed_is_noop (env : Configurator Act Cfg Eng) (chainID : Nat)
    (chainsCoinInfo : List (Nat × EvmCoinInfo)) (ci : EvmCoinInfo) (acts : Act)
    (s : State Eng) (h : s.sealed = true) :
    EvmAppOptionsWithConfig env chainID chainsCoinInfo acts s = (s, .nil)
    ∧ EvmAppOptionsWithDynamicConfig env chainID ci acts s = (s, .nil) := by
  simp [EvmAppOptionsWithConfig, EvmAppOptionsWithDynamicConfig, h]

/-- C2 at a concrete input: the sealed state after boot, a chain id that the
(empty) map does not contain, and a coin info that differs from the applied
one. -/
theorem C2_sealed_is_noop_witness :
    State.booted.sealed = true
    ∧ EvmAppOptionsWithConfig specEngine 7 [] [3] State.booted = (State.booted, .nil)
    ∧ EvmAppOptionsWithDynamicConfig specEngine 7 ⟨"wei", "ETH", 18⟩ [3] State.booted
      = (State.booted, .nil) :=
  ⟨rfl, C2_sealed_is_noop specEngine 7 [] ⟨"wei", "ETH", 18⟩ [3] State.booted rfl⟩

/-- A successful `EvmAppOptionsWithDynamicConfig` leaves the Seal Flag set. -/
theorem dynamic_nil_sealed (env : Configurator Act Cfg Eng) (chainID : Nat) (ci : EvmCoinInfo)
    (acts : Act) (s : State Eng)
    (h : (EvmAppOptionsWithDynamicConfig env chainID ci acts s).2 = .nil) :
    (EvmAppOptionsWithDynamicConfig env chainID ci acts s).1.sealed = true := by
  simp only [EvmAppOptionsWithDynamicConfig] at h ⊢
  cases hs : s.sealed with
  | true => simp [hs]
  | false =>
    simp only [hs] at h ⊢
    generalize EvmAppOptionsWithDynamicConfigWithReset env chainID ci acts false s = p at h ⊢
    obtain ⟨s1, r⟩ := p
    cases r <;> simp_all

/-- A successful `EvmAppOptionsWithConfig` leaves the Seal Flag set. -/
theorem config_nil_sealed (env : Configurator Act Cfg Eng) (chainID : Nat)
    (chainsCoinInfo : List (Nat × EvmCoinInfo)) (acts : Act) (s : State Eng)
    (h : (EvmAppOptionsWithConfig env chainID chainsCoinInfo acts s).2 = .nil) :
    (EvmAppOptionsWithConfig env chainID chainsCoinInfo acts s).1.sealed = true := by
  simp only [EvmAppOptionsWithConfig] at h ⊢
  cases hs : s.sealed with
  | true => simp [hs]
  | false =>
    simp only [hs] at h ⊢
    cases hl : chainsCoinInfo.lookup chainID with
    | none => simp [hl] at h
    | some ci =>
      simp only [hl, Bool.false_eq_true, if_false] at h ⊢
      exact dynamic_nil_sealed env chainID ci acts _ h

/-- Both non-reset entry points are the identity on a sealed state. -/
theorem sealed_noop (env : Configurator Act Cfg Eng) (chainID : Nat)
    (chainsCoinInfo : List (Nat × EvmCoinInfo)) (ci : EvmCoinInfo) (acts : Act)
    (s : State Eng) (h : s.sealed = true) :
    EvmAppOptionsWithConfig env chainID chainsCoinInfo acts s = (s, .nil)
    ∧ EvmAppOptionsWithDynamicConfig env chainID ci acts s = (s, .nil) := by
  simp [EvmAppOptionsWithConfig, EvmAppOptionsWithDynamicConfig, h]

/-- C3.  Two-call idempotence: if a first call of `EvmAppOptionsWithConfig`,
or of `EvmAppOptionsWithDynamicConfig`, returns success (from any state, the
initial unsealed one included), then a second call of either non-reset entry
point, with any arguments (the same or different ones), returns success and
leaves the whole state as the first call left it: no catalog or engine
mutation, so the engine's applied parameters stay those of the first call. -/
theorem C3_second_call_is_noop (env : Configurator Act Cfg Eng) (s : State Eng)
    (chainID : Nat) (chainsCoinInfo : List (Nat × EvmCoinInfo)) (ci : EvmCoinInfo) (acts : Act)
    (chainID2 : Nat) (chainsCoinInfo2 : List (Nat × EvmCoinInfo)) (ci2 : EvmCoinInfo)
    (acts2 : Act) :
    ((EvmAppOptionsWithConfig env chainID chainsCoinInfo acts s).2 = .nil →
      EvmAppOptionsWithConfig env chainID2 chainsCoinInfo2 acts2
          (EvmAppOptionsWithConfig env chainID chainsCoinInfo acts s).1
        = ((EvmAppOptionsWithConfig env chainID chainsCoinInfo acts s).1, .nil)
      ∧ EvmAppOptionsWithDynamicConfig env chainID2 ci2 acts2
          (EvmAppOptionsWithConfig env chainID chainsCoinInfo acts s).1
        = ((EvmAppOptionsWithConfig env chainID chainsCoinInfo acts s).1, .nil))
    ∧ ((EvmAppOptionsWithDynamicConfig env chainID ci acts s).2 = .nil →
      EvmAppOptionsWithConfig env chainID2 chainsCoinInfo2 acts2
          (EvmAppOptionsWithDynamicConfig env chainID ci acts s).1
        = ((EvmAppOptionsWithDynamicConfig env chainID ci acts s).1, .nil)
      ∧ EvmAppOptionsWithDynamicConfig env chainID2 ci2 acts2
          (EvmAppOptionsWithDynamicConfig env chainID ci acts s).1
        = ((EvmAppOptionsWithDynamicConfig env chainID ci acts s).1, .nil)) :=
  ⟨fun h => sealed_noop env chainID2 chainsCoinInfo2 ci2 acts2 _
      (config_nil_sealed env chainID chainsCoinInfo acts s h),
   fun h => sealed_noop env chainID2 chainsCoinInfo2 ci2 acts2 _
      (dynamic_nil_sealed env chainID ci acts s h)⟩

/-- C3 at a concrete input: from the initial state both first calls succeed
for chain 9001 with `atom`; a second call for chain 1 with another coin info
and another activator table then changes nothing, and the engine still holds
the parameters of 9001. -/
theorem C3_second_call_is_noop_witness :
    (EvmAppOptionsWithConfig specEngine 9001 [(9001, atom)] [] State.initial).2 = .nil
    ∧ (EvmAppOptionsWithDynamicConfig specEngine 9001 atom [] State.initial).2 = .nil
    ∧ EvmAppOptionsWithDynamicConfig specEngine 1 ⟨"wei", "ETH", 18⟩ [3]
          (EvmAppOptionsWithConfig specEngine 9001 [(9001, atom)] [] State.initial).1
        = ((EvmAppOptionsWithConfig specEngine 9001 [(9001, atom)] [] State.initial).1, .nil)
    ∧ EvmAppOptionsWithConfig specEngine 1 [(1, ⟨"wei", "ETH", 18⟩)] [3]
          (EvmAppOptionsWithDynamicConfig specEngine 9001 atom [] State.initial).1
        = ((EvmAppOptionsWithDynamicConfig specEngine 9001 atom [] State.initial).1, .nil)
    ∧ (EvmAppOptionsWithDynamicConfig specEngine 9001 atom [] State.initial).1.engine
        = ⟨some (9001, atom, [])⟩ :=
  ⟨by decide, by decide,
   ((C3_second_call_is_noop specEngine State.initial 9001 [(9001, atom)] atom []
      1 [(1, ⟨"wei", "ETH", 18⟩)] ⟨"wei", "ETH", 18⟩ [3]).1 (by decide)).2,
   ((C3_second_call_is_noop specEngine State.initial 9001 [(9001, atom)] atom []
      1 [(1, ⟨"wei", "ETH", 18⟩)] ⟨"wei", "ETH", 18⟩ [3]).2 (by decide)).1,
   by decide⟩

/-- C4 as stated fails: in a sealed state `EvmAppOptionsWithConfig` called
with a map that does not contain the chain id (here the empty map) returns
success, not the unknown-chain-id error. -/
theorem C4_sealed_absent_chain_returns_nil :
    State.booted.sealed = true
    ∧ List.lookup 7 ([] : List (Nat × EvmCoinInfo)) = none
    ∧ (EvmAppOptionsWithConfig specEngine 7 [] [] State.booted).2 = .nil
    ∧ (EvmAppOptionsWithConfig specEngine 7 [] [] State.booted).2
        ≠ .err (.unknownChainId 7) := by
  decide

/-- C4, amended.  For every map that does not contain `chainID`,
`EvmAppOptionsWithConfig` performs no mutation of the catalog, the engine
configuration or the Seal Flag; it returns the unknown-chain-id error when the
Seal Flag is false, and success when the Seal Flag is true (the seal check
comes before the lookup). -/
theorem C4_absent_chain (env : Configurator Act Cfg Eng) (chainID : Nat)
    (chainsCoinInfo : List (Nat × EvmCoinInfo)) (acts : Act) (s : State Eng)
    (habsent : chainsCoinInfo.lookup chainID = none) :
    (EvmAppOptionsWithConfig env chainID chainsCoinInfo acts s).1 = s
    ∧ (s.sealed = false →
        (EvmAppOptionsWithConfig env chainID chainsCoinInfo acts s).2
          = .err (.unknownChainId chainID))
    ∧ (s.sealed = true →
        (EvmAppOptionsWithConfig env chainID chainsCoinInfo acts s).2 = .nil) := by
  cases hs : s.sealed <;> simp [EvmAppOptionsWithConfig, hs, habsent]

/-- C4 amended, at a concrete input: chain id 7 with a map that only knows
9001, from the initial (unsealed) state. -/
theorem C4_absent_chain_witness :
    List.lookup 7 [(9001, atom)] = none
    ∧ State.initial.sealed = false
    ∧ EvmAppOptionsWithConfig specEngine 7 [(9001, atom)] [] State.initial
        = (State.initial, .err (.unknownChainId 7)) :=
  ⟨by decide, rfl,
   Prod.ext (C4_absent_chain specEngine 7 [(9001, atom)] [] State.initial (by decide)).1
     ((C4_absent_chain specEngine 7 [(9001, atom)] [] State.initial (by decide)).2.1 rfl)⟩

/-- C5.  Called with the Seal Flag false, `EvmAppOptionsWithDynamicConfig`
has exactly the effects on catalog and engine, and the result, of
`EvmAppOptionsWithDynamicConfigWithReset(chainID, coinInfo, activators, false)`;
the Seal Flag is true afterwards when that call returned success and still
false when it did not (an error is handed on unchanged, so a later call
attempts the apply again). -/
theorem C5_dynamic_unsealed (env : Configurator Act Cfg Eng) (chainID : Nat)
    (ci : EvmCoinInfo) (acts : Act) (s : State Eng) (h : s.sealed = false) :
    (EvmAppOptionsWithDynamicConfig env chainID ci acts s).1.registry
      = (EvmAppOptionsWithDynamicConfigWithReset env chainID ci acts false s).1.registry
    ∧ (EvmAppOptionsWithDynamicConfig env chainID ci acts s).1.engine
      = (EvmAppOptionsWithDynamicConfigWithReset env chainID ci acts false s).1.engine
    ∧ (EvmAppOptionsWithDynamicConfig env chainID ci acts s).2
      = (EvmAppOptionsWithDynamicConfigWithReset env chainID ci acts false s).2
    ∧ ((EvmAppOptionsWithDynamicConfigWithReset env chainID ci acts false s).2 = .nil →
        (EvmAppOptionsWithDynamicConfig env chainID ci acts s).1.sealed = true)
    ∧ ((EvmAppOptionsWithDynamicConfigWithReset env chainID ci acts false s).2 ≠ .nil →
        (EvmAppOptionsWithDynamicConfig env chainID ci acts s).1.sealed = false) := by
  have hflag := withReset_sealed env chainID ci acts false s
  simp only [EvmAppOptionsWithDynamicConfig, h]
  generalize EvmAppOptionsWithDynamicConfigWithReset env chainID ci acts false s = p at hflag ⊢
  obtain ⟨s1, r⟩ := p
  cases r <;> simp_all

/-- C5 at concrete inputs.  From the initial state the apply succeeds and the
flag is set.  From an unsealed state whose engine is already configured,
`Configure` is rejected: the same error comes back and the flag stays false. -/
theorem C5_dynamic_unsealed_witness :
    (EvmAppOptionsWithDynamicConfigWithReset specEngine 9001 atom [] false State.initial).2 = .nil
    ∧ (EvmAppOptionsWithDynamicConfig specEngine 9001 atom [] State.initial).1.sealed = true
    ∧ (EvmAppOptionsWithDynamicConfig specEngine 9001 atom []
          ⟨false, sdk.Registry.empty, ⟨some (1, atom, [])⟩⟩).2
        = .err (.engine "already configured")
    ∧ (EvmAppOptionsWithDynamicConfig specEngine 9001 atom []
          ⟨false, sdk.Registry.empty, ⟨some (1, atom, [])⟩⟩).1.sealed = false :=
  ⟨by decide,
   (C5_dynamic_unsealed specEngine 9001 atom [] State.initial rfl).2.2.2.1 (by decide),
   (C5_dynamic_unsealed specEngine 9001 atom []
      ⟨false, sdk.Registry.empty, ⟨some (1, atom, [])⟩⟩ rfl).2.2.1.trans (by decide),
   (C5_dynamic_unsealed specEngine 9001 atom []
      ⟨false, sdk.Registry.empty, ⟨some (1, atom, [])⟩⟩ rfl).2.2.2.2 (by decide)⟩

/-- C6 as stated fails in its last sentence.  In the sealed state after boot
(engine configured for 9001), a call with `withReset = true` for chain 1 and
the coin info with base `aatom`, display `ATOM`, 18 decimals: the display
symbol is already registered and the base symbol is not, so `setBaseDenom`
returns the not-registered error, and the call returns it with the engine's
applied configuration neither reset nor replaced: it is still that of 9001. -/
theorem C6_sealed_reset_call_leaves_engine :
    State.booted.sealed = true
    ∧ State.booted.engine = ⟨some (9001, atom, [])⟩
    ∧ (setBaseDenom ⟨"aatom", "ATOM", 18⟩ State.booted.registry).2
        = .err (.notRegistered "aatom")
    ∧ EvmAppOptionsWithDynamicConfigWithReset specEngine 1 ⟨"aatom", "ATOM", 18⟩ [3] true
          State.booted
        = (State.booted, .err (.notRegistered "aatom"))
    ∧ (EvmAppOptionsWithDynamicConfigWithReset specEngine 1 ⟨"aatom", "ATOM", 18⟩ [3] true
          State.booted).1.engine
        ≠ (specEngine.Configure [3] (specEngine.DefaultChainConfig 1) ⟨"aatom", "ATOM", 18⟩
            (specEngine.ResetTestConfig State.booted.engine)).1 := by
  decide

/-- C6, amended.  `EvmAppOptionsWithDynamicConfigWithReset` neither reads nor
writes the Seal Flag: the flag after the call is the flag before, and run from
a state with any other flag `b` (same catalog, same engine) it returns the
same result and produces the same catalog and engine.  In particular, with
`withReset = true` and the flag true: when `setBaseDenom` succeeds, the engine
is left as `Configure`, run with the new parameters on the reset engine
configuration, leaves it, and the result is that of `Configure`; when
`setBaseDenom` does not succeed, its result is returned and the engine
configuration is neither reset nor touched by `Configure`. -/
theorem C6_withReset_ignores_seal (env : Configurator Act Cfg Eng) (chainID : Nat)
    (ci : EvmCoinInfo) (acts : Act) (withReset : Bool) (s : State Eng) :
    (EvmAppOptionsWithDynamicConfigWithReset env chainID ci acts withReset s).1.sealed
      = s.sealed
    ∧ (∀ b : Bool,
        EvmAppOptionsWithDynamicConfigWithReset env chainID ci acts withReset
            ⟨b, s.registry, s.engine⟩
          = (⟨b,
              (EvmAppOptionsWithDynamicConfigWithReset env chainID ci acts withReset s).1.registry,
              (EvmAppOptionsWithDynamicConfigWithReset env chainID ci acts withReset s).1.engine⟩,
             (EvmAppOptionsWithDynamicConfigWithReset env chainID ci acts withReset s).2))
    ∧ ((setBaseDenom ci s.registry).2 = .nil →
        EvmAppOptionsWithDynamicConfigWithReset env chainID ci acts true
            ⟨true, s.registry, s.engine⟩
          = (⟨true, (setBaseDenom ci s.registry).1,
              (env.Configure acts (env.DefaultChainConfig chainID) ci
                (env.ResetTestConfig s.engine)).1⟩,
             (env.Configure acts (env.DefaultChainConfig chainID) ci
                (env.ResetTestConfig s.engine)).2))
    ∧ ((setBaseDenom ci s.registry).2 ≠ .nil →
        EvmAppOptionsWithDynamicConfigWithReset env chainID ci acts true
            ⟨true, s.registry, s.engine⟩
          = (⟨true, (setBaseDenom ci s.registry).1, s.engine⟩,
             (setBaseDenom ci s.registry).2)) := by
  refine ⟨withReset_sealed env chainID ci acts withReset s,
    fun b => withReset_flag env chainID ci acts withReset s b, fun h => ?_, fun h => ?_⟩
  · simp only [EvmAppOptionsWithDynamicConfigWithReset]
    generalize setBaseDenom ci s.registry = p at h ⊢
    obtain ⟨reg, r⟩ := p
    cases r <;> simp_all
  · unfold EvmAppOptionsWithDynamicConfigWithReset
    generalize setBaseDenom ci s.registry = p at h ⊢
    obtain ⟨reg, r⟩ := p
    cases r <;> simp_all

/-- C6 amended, at concrete inputs, both in the sealed state after boot
(engine configured for 9001) with `withReset = true` for chain 1.  With `atom`
`setBaseDenom` succeeds: the call succeeds, leaves the flag true and
overwrites the engine's configuration with that of chain 1.  With base
`aatom` and display `ATOM` it fails: the error is returned and the state is
unchanged. -/
theorem C6_withReset_ignores_seal_witness :
    (setBaseDenom atom State.booted.registry).2 = .nil
    ∧ State.booted.engine = ⟨some (9001, atom, [])⟩
    ∧ EvmAppOptionsWithDynamicConfigWithReset specEngine 1 atom [3] true State.booted
        = (⟨true, State.booted.registry, ⟨some (1, atom, [3])⟩⟩, .nil)
    ∧ (setBaseDenom ⟨"aatom", "ATOM", 18⟩ State.booted.registry).2 ≠ .nil
    ∧ EvmAppOptionsWithDynamicConfigWithReset specEngine 1 ⟨"aatom", "ATOM", 18⟩ [3] true
          State.booted
        = (⟨true, State.booted.registry, ⟨some (9001, atom, [])⟩⟩,
            .err (.notRegistered "aatom")) :=
  ⟨by decide, rfl,
   ((C6_withReset_ignores_seal specEngine 1 atom [3] true State.booted).2.2.1
      (by decide)).trans (by decide),
   by decide,
   ((C6_withReset_ignores_seal specEngine 1 ⟨"aatom", "ATOM", 18⟩ [3] true State.booted).2.2.2
      (by decide)).trans (by decide)⟩

/-- C7.  `EvmAppOptionsWithConfigWithReset`, in every state: with `chainID`
absent from the map it returns the unknown-chain-id error and the state is
unchanged; with `chainID` present, its result and state are those of
`EvmAppOptionsWithDynamicConfigWithReset(chainID, map[chainID], activators,
withReset)`; the Seal Flag is not changed, and from a state with any other
flag `b` the call gives the same result, catalog and engine. -/
theorem C7_configWithReset (env : Configurator Act Cfg Eng) (chainID : Nat)
    (chainsCoinInfo : List (Nat × EvmCoinInfo)) (acts : Act) (withReset : Bool)
    (s : State Eng) :
    (chainsCoinInfo.lookup chainID = none →
        EvmAppOptionsWithConfigWithReset env chainID chainsCoinInfo acts withReset s
          = (s, .err (.unknownChainId chainID)))
    ∧ (∀ ci, chainsCoinInfo.lookup chainID = some ci →
        EvmAppOptionsWithConfigWithReset env chainID chainsCoinInfo acts withReset s
          = EvmAppOptionsWithDynamicConfigWithReset env chainID ci acts withReset s)
    ∧ (EvmAppOptionsWithConfigWithReset env chainID chainsCoinInfo acts withReset s).1.sealed
        = s.sealed
    ∧ (∀ b : Bool,
        EvmAppOptionsWithConfigWithReset env chainID chainsCoinInfo acts withReset
            ⟨b, s.registry, s.engine⟩
          = (⟨b,
              (EvmAppOptionsWithConfigWithReset env chainID chainsCoinInfo acts withReset
                s).1.registry,
              (EvmAppOptionsWithConfigWithReset env chainID chainsCoinInfo acts withReset
                s).1.engine⟩,
             (EvmAppOptionsWithConfigWithReset env chainID chainsCoinInfo acts withReset
                s).2)) := by
  simp only [EvmAppOptionsWithConfigWithReset]
  cases hl : chainsCoinInfo.lookup chainID with
  | none => simp
  | some ci =>
    refine ⟨by simp, by simp, withReset_sealed env chainID ci acts withReset s,
      fun b => withReset_flag env chainID ci acts withReset s b⟩

/-- C7 at concrete inputs, both from the sealed state after boot: chain 7 is
not in the map, and chain 1 is. -/
theorem C7_configWithReset_witness :
    EvmAppOptionsWithConfigWithReset specEngine 7 [(1, atom)] [3] true State.booted
        = (State.booted, .err (.unknownChainId 7))
    ∧ EvmAppOptionsWithConfigWithReset specEngine 1 [(1, atom)] [3] true State.booted
        = (⟨true, State.booted.registry, ⟨some (1, atom, [3])⟩⟩, .nil) :=
  ⟨(C7_configWithReset specEngine 7 [(1, atom)] [3] true State.booted).1 (by decide),
   ((C7_configWithReset specEngine 1 [(1, atom)] [3] true State.booted).2.1 atom
      (by decide)).trans (by decide)⟩

/-- `EvmAppOptionsWithDynamicConfigWithReset` when `setBaseDenom` does not
return `nil`: the result is handed on, the engine is untouched. -/
theorem withReset_of_denom_failed (env : Configurator Act Cfg Eng) (chainID : Nat)
    (ci : EvmCoinInfo) (acts : Act) (withReset : Bool) (s : State Eng)
    (h : (setBaseDenom ci s.registry).2 ≠ .nil) :
    EvmAppOptionsWithDynamicConfigWithReset env chainID ci acts withReset s
      = (⟨s.sealed, (setBaseDenom ci s.registry).1, s.engine⟩,
          (setBaseDenom ci s.registry).2) := by
  unfold EvmAppOptionsWithDynamicConfigWithReset
  generalize setBaseDenom ci s.registry = p at h ⊢
  obtain ⟨reg, r⟩ := p
  cases r <;> simp_all

/-- `EvmAppOptionsWithDynamicConfigWithReset` when `setBaseDenom` returns
`nil`: the optional reset, then `Configure`, whose result is returned. -/
theorem withReset_of_denom_ok (env : Configurator Act Cfg Eng) (chainID : Nat)
    (ci : EvmCoinInfo) (acts : Act) (withReset : Bool) (s : State Eng)
    (h : (setBaseDenom ci s.registry).2 = .nil) :
    EvmAppOptionsWithDynamicConfigWithReset env chainID ci acts withReset s
      = (⟨s.sealed, (setBaseDenom ci s.registry).1,
            (env.Configure acts (env.DefaultChainConfig chainID) ci
              (if withReset then env.ResetTestConfig s.engine else s.engine)).1⟩,
          (env.Configure acts (env.DefaultChainConfig chainID) ci
              (if withReset then env.ResetTestConfig s.engine else s.engine)).2) := by
  simp only [EvmAppOptionsWithDynamicConfigWithReset]
  generalize setBaseDenom ci s.registry = p at h ⊢
  obtain ⟨reg, r⟩ := p
  cases r <;> simp_all

/-- C15.  If `setBaseDenom` has succeeded and the Configurator's `Configure`
(run after the reset when `withReset` is true) returns an error, then
`EvmAppOptionsWithDynamicConfigWithReset` returns that same error; the catalog
is the one `setBaseDenom` wrote (registrations and base-unit pointer are not
undone), the engine is in the state in which `Configure` left the (reset)
engine, and the Seal Flag is unchanged. -/
theorem C15_configure_error_no_rollback (env : Configurator Act Cfg Eng) (chainID : Nat)
    (ci : EvmCoinInfo) (acts : Act) (withReset : Bool) (s : State Eng) (e : Error)
    (hden : (setBaseDenom ci s.registry).2 = .nil)
    (hcfg : (env.Configure acts (env.DefaultChainConfig chainID) ci
        (if withReset then env.ResetTestConfig s.engine else s.engine)).2 = .err e) :
    EvmAppOptionsWithDynamicConfigWithReset env chainID ci acts withReset s
      = (⟨s.sealed, (setBaseDenom ci s.registry).1,
            (env.Configure acts (env.DefaultChainConfig chainID) ci
              (if withReset then env.ResetTestConfig s.engine else s.engine)).1⟩,
          .err e) := by
  rw [withReset_of_denom_ok env chainID ci acts withReset s hden, hcfg]

/-- C15 at a concrete input: an unsealed state with an empty catalog and an
engine configured for chain 1, an engine that rejects `Configure`, and
`withReset = true`.  The error comes back, `ATOM` and `uatom` stay registered
with base unit `uatom`, the engine stays reset, and the flag stays false. -/
theorem C15_configure_error_no_rollback_witness :
    EvmAppOptionsWithDynamicConfigWithReset refusingEngine 9001 atom [] true
        ⟨false, sdk.Registry.empty, ⟨some (1, atom, [])⟩⟩
      = (⟨false, ⟨[("uatom", ⟨10 ^ 12⟩), ("ATOM", ⟨10 ^ 18⟩)], "uatom"⟩, ⟨none⟩⟩,
          .err (.engine "rejected")) :=
  (C15_configure_error_no_rollback refusingEngine 9001 atom [] true
      ⟨false, sdk.Registry.empty, ⟨some (1, atom, [])⟩⟩ (.engine "rejected")
      (by decide) (by decide)).trans (by decide)

/-- C17.  For every state and all arguments, `EvmAppOptionsWithConfig` leaves
the catalog and the engine configuration as they were (no registration, no
base-unit update, no reset, no `Configure`); the Seal Flag afterwards is true
exactly when it was true before or `chainID` is in the map, so the only
possible change is false to true, exactly when the flag was false and
`chainID` is in the map; and the call returns an error, the unknown-chain-id
one, exactly when the flag was false and `chainID` is absent from the map,
and success otherwise. -/
theorem C17_config_changes_only_the_flag (env : Configurator Act Cfg Eng) (chainID : Nat)
    (chainsCoinInfo : List (Nat × EvmCoinInfo)) (acts : Act) (s : State Eng) :
    EvmAppOptionsWithConfig env chainID chainsCoinInfo acts s
      = (⟨s.sealed || (chainsCoinInfo.lookup chainID).isSome, s.registry, s.engine⟩,
          if s.sealed = false ∧ chainsCoinInfo.lookup chainID = none
          then .err (.unknownChainId chainID) else .nil)
    ∧ (((EvmAppOptionsWithConfig env chainID chainsCoinInfo acts s).1.sealed = true
          ∧ s.sealed = false)
        ↔ (s.sealed = false ∧ (chainsCoinInfo.lookup chainID).isSome = true))
    ∧ ((∃ e, (EvmAppOptionsWithConfig env chainID chainsCoinInfo acts s).2 = .err e)
        ↔ (s.sealed = false ∧ chainsCoinInfo.lookup chainID = none)) := by
  obtain ⟨sealed, registry, engine⟩ := s
  cases sealed <;> cases hl : chainsCoinInfo.lookup chainID <;>
    simp [EvmAppOptionsWithConfig, EvmAppOptionsWithDynamicConfig, hl]

/-- C17 at a concrete input, on the spied engine: from the initial state with
chain 9001 in the map, the call returns success, only the flag changes, and
the counter of successful `Configure` applications is still 0. -/
theorem C17_config_changes_only_the_flag_witness :
    EvmAppOptionsWithConfig (spy specEngine) 9001 [(9001, atom)] []
        ⟨false, sdk.Registry.empty, (⟨none⟩, 0)⟩
      = (⟨true, sdk.Registry.empty, (⟨none⟩, 0)⟩, .nil) :=
  (C17_config_changes_only_the_flag (spy specEngine) 9001 [(9001, atom)] []
      ⟨false, sdk.Registry.empty, (⟨none⟩, 0)⟩).1.trans (by decide)

/-- C18.  In `EvmAppOptionsWithDynamicConfigWithReset` the denomination
registration runs first.  If `setBaseDenom` does not return success, its
result is returned and the engine configuration is exactly as before the call,
for either value of `withReset`: neither reset nor touched by `Configure`.
If it returns success, the engine is what `Configure` leaves when run on the
reset engine (`withReset` true) or on the engine as it was (`withReset`
false): the reset comes after `setBaseDenom` and before `Configure`. -/
theorem C18_registration_first (env : Configurator Act Cfg Eng) (chainID : Nat)
    (ci : EvmCoinInfo) (acts : Act) (withReset : Bool) (s : State Eng) :
    ((setBaseDenom ci s.registry).2 ≠ .nil →
        EvmAppOptionsWithDynamicConfigWithReset env chainID ci acts withReset s
          = (⟨s.sealed, (setBaseDenom ci s.registry).1, s.engine⟩,
              (setBaseDenom ci s.registry).2))
    ∧ ((setBaseDenom ci s.registry).2 = .nil →
        EvmAppOptionsWithDynamicConfigWithReset env chainID ci acts withReset s
          = (⟨s.sealed, (setBaseDenom ci s.registry).1,
                (env.Configure acts (env.DefaultChainConfig chainID) ci
                  (if withReset then env.ResetTestConfig s.engine else s.engine)).1⟩,
              (env.Configure acts (env.DefaultChainConfig chainID) ci
                  (if withReset then env.ResetTestConfig s.engine else s.engine)).2)) :=
  ⟨withReset_of_denom_failed env chainID ci acts withReset s,
   withReset_of_denom_ok env chainID ci acts withReset s⟩

/-- C18 at concrete inputs, both with `withReset = true` on the state after
boot with the spied engine (one successful `Configure` so far).  With a coin
info whose symbols are malformed `setBaseDenom` returns an error: the engine
is still configured for 9001 and the counter is still 1.  With `atom` it
succeeds: the engine is reset and then configured for chain 1, counter 2. -/
theorem C18_registration_first_witness :
    EvmAppOptionsWithDynamicConfigWithReset (spy specEngine) 1 ⟨"u", "AT OM", 6⟩ [] true
        ⟨true, State.booted.registry, (⟨some (9001, atom, [])⟩, 1)⟩
      = (⟨true, State.booted.registry, (⟨some (9001, atom, [])⟩, 1)⟩,
          .err (.notRegistered "u"))
    ∧ EvmAppOptionsWithDynamicConfigWithReset (spy specEngine) 1 atom [] true
        ⟨true, State.booted.registry, (⟨some (9001, atom, [])⟩, 1)⟩
      = (⟨true, State.booted.registry, (⟨some (1, atom, [])⟩, 2)⟩, .nil) :=
  ⟨((C18_registration_first (spy specEngine) 1 ⟨"u", "AT OM", 6⟩ [] true
      ⟨true, State.booted.registry, (⟨some (9001, atom, [])⟩, 1)⟩).1 (by decide)).trans
      (by decide),
   ((C18_registration_first (spy specEngine) 1 atom [] true
      ⟨true, State.booted.registry, (⟨some (9001, atom, [])⟩, 1)⟩).2 (by decide)).trans
      (by decide)⟩

end SealGate

/-! ## Sequences of calls -/

section Sequences

variable {Act Cfg Eng : Type}

/-- `EvmAppOptionsWithConfig` never touches the catalog or the engine. -/
theorem config_frame (env : Configurator Act Cfg Eng) (chainID : Nat)
    (chainsCoinInfo : List (Nat × EvmCoinInfo)) (acts : Act) (s : State Eng) :
    (EvmAppOptionsWithConfig env chainID chainsCoinInfo acts s).1.registry = s.registry
    ∧ (EvmAppOptionsWithConfig env chainID chainsCoinInfo acts s).1.engine = s.engine := by
  obtain ⟨sealed, registry, engine⟩ := s
  cases sealed <;> cases hl : chainsCoinInfo.lookup chainID <;>
    simp [EvmAppOptionsWithConfig, EvmAppOptionsWithDynamicConfig, hl]

/-- No call of any entry point clears the Seal Flag. -/
theorem run_keeps_sealed (env : Configurator Act Cfg Eng) (c : Call Act) (s : State Eng)
    (h : s.sealed = true) : (c.run env s).1.sealed = true := by
  cases c with
  | config chainID m acts =>
    exact (congrArg (fun p => p.1.sealed) (sealed_noop env chainID m atom acts s h).1).trans h
  | dynamic chainID ci acts =>
    exact (congrArg (fun p => p.1.sealed) (sealed_noop env chainID [] ci acts s h).2).trans h
  | dynamicWithReset chainID ci acts withReset =>
    exact (withReset_sealed env chainID ci acts withReset s).trans h
  | configWithReset chainID m acts withReset =>
    simp only [Call.run, EvmAppOptionsWithConfigWithReset]
    cases m.lookup chainID with
    | none => exact h
    | some ci => exact (withReset_sealed env chainID ci acts withReset s).trans h

/-- On a sealed state a call through a non-reset entry point changes
nothing. -/
theorem run_nonReset_sealed (env : Configurator Act Cfg Eng) (c : Call Act) (s : State Eng)
    (h : s.sealed = true) (hc : c.nonReset = true) : (c.run env s).1 = s := by
  cases c with
  | config chainID m acts => exact congrArg Prod.fst (sealed_noop env chainID m atom acts s h).1
  | dynamic chainID ci acts => exact congrArg Prod.fst (sealed_noop env chainID [] ci acts s h).2
  | dynamicWithReset chainID ci acts withReset => simp [Call.nonReset] at hc
  | configWithReset chainID m acts withReset => simp [Call.nonReset] at hc

/-- If the counter of successful `Configure` applications goes up during a
call of `EvmAppOptionsWithDynamicConfig`, the call leaves the Seal Flag
set. -/
theorem dynamic_spy_seals (env : Configurator Act Cfg Eng) (chainID : Nat) (ci : EvmCoinInfo)
    (acts : Act) (s : State (Eng × Nat))
    (h : s.engine.2 < (EvmAppOptionsWithDynamicConfig (spy env) chainID ci acts s).1.engine.2) :
    (EvmAppOptionsWithDynamicConfig (spy env) chainID ci acts s).1.sealed = true := by
  apply dynamic_nil_sealed
  cases hs : s.sealed with
  | true =>
    rw [(sealed_noop (spy env) chainID [] ci acts s hs).2] at h
    exact absurd h (Nat.lt_irrefl _)
  | false =>
    simp only [EvmAppOptionsWithDynamicConfig, hs] at h ⊢
    by_cases hden : (setBaseDenom ci s.registry).2 = .nil
    · rw [withReset_of_denom_ok (spy env) chainID ci acts false s hden] at h ⊢
      cases hcfg : (env.Configure acts (env.DefaultChainConfig chainID) ci s.engine.1).2 <;>
        simp_all [spy]
    · rw [withReset_of_denom_failed (spy env) chainID ci acts false s hden] at h
      generalize setBaseDenom ci s.registry = p at h hden
      obtain ⟨reg, r⟩ := p
      cases r <;> simp_all

/-- If the counter goes up during a call through a non-reset entry point, the
call leaves the Seal Flag set. -/
theorem nonReset_apply_seals (env : Configurator Act Cfg Eng) (c : Call Act)
    (s : State (Eng × Nat)) (hc : c.nonReset = true)
    (h : s.engine.2 < (c.run (spy env) s).1.engine.2) :
    (c.run (spy env) s).1.sealed = true := by
  cases c with
  | config chainID m acts =>
    simp only [Call.run] at h
    rw [(config_frame (spy env) chainID m acts s).2] at h
    exact absurd h (Nat.lt_irrefl _)
  | dynamic chainID ci acts => exact dynamic_spy_seals env chainID ci acts s h
  | dynamicWithReset chainID ci acts withReset => simp [Call.nonReset] at hc
  | configWithReset chainID m acts withReset => simp [Call.nonReset] at hc

/-- From a sealed state no call through a non-reset entry point runs
`Configure` to success. -/
theorem nonResetApplies_sealed (env : Configurator Act Cfg Eng) (calls : List (Call Act)) :
    ∀ s : State (Eng × Nat), s.sealed = true → nonResetApplies env calls s = 0 := by
  induction calls with
  | nil => intro s _; rfl
  | cons c cs ih =>
    intro s hs
    simp only [nonResetApplies]
    rw [ih _ (run_keeps_sealed (spy env) c s hs)]
    cases hc : c.nonReset with
    | false => simp
    | true => simp [run_nonReset_sealed (spy env) c s hs hc]

/-- From any state, at most one call through a non-reset entry point runs
`Configure` to success. -/
theorem nonResetApplies_le_one (env : Configurator Act Cfg Eng) (calls : List (Call Act)) :
    ∀ s : State (Eng × Nat), nonResetApplies env calls s ≤ 1 := by
  induction calls with
  | nil => intro s; simp [nonResetApplies]
  | cons c cs ih =>
    intro s
    simp only [nonResetApplies]
    by_cases hcond : (c.nonReset && decide (s.engine.2 < (c.run (spy env) s).1.engine.2)) = true
    · have hc : c.nonReset = true := by
        cases hn : c.nonReset <;> simp_all
      have hlt : s.engine.2 < (c.run (spy env) s).1.engine.2 := by
        cases hn : c.nonReset <;> simp_all
      rw [nonResetApplies_sealed env cs _ (nonReset_apply_seals env c s hc hlt)]
      simp [hcond]
    · simp only [hcond]
      simpa using ih (c.run (spy env) s).1

/-- C12.  In every sequence of calls of the four entry points, run from any
start state and in particular from the initial one (Seal Flag false), at most
one call made through the non-reset entry points `EvmAppOptionsWithConfig`
and `EvmAppOptionsWithDynamicConfig` runs the Configurator's `Configure` to
success. -/
theorem C12_at_most_one_non_reset_apply (env : Configurator Act Cfg Eng)
    (calls : List (Call Act)) (s : State (Eng × Nat)) :
    nonResetApplies env calls s ≤ 1 :=
  nonResetApplies_le_one env calls s

/-- C12 at a concrete sequence from the initial state: a dynamic call for
9001 (applies), a dynamic call for chain 1 (no-op), two reset calls that each
apply again, and a map-keyed call (no-op).  `Configure` succeeded three times
in all, and once through a non-reset entry point. -/
theorem C12_at_most_one_non_reset_apply_witness :
    nonResetApplies specEngine
        [.dynamic 9001 atom [], .dynamic 1 atom [3], .dynamicWithReset 1 atom [] true,
         .configWithReset 2 [(2, atom)] [] true, .config 9001 [(9001, atom)] []]
        ⟨false, sdk.Registry.empty, (⟨none⟩, 0)⟩ = 1
    ∧ (runCalls (spy specEngine)
        [.dynamic 9001 atom [], .dynamic 1 atom [3], .dynamicWithReset 1 atom [] true,
         .configWithReset 2 [(2, atom)] [] true, .config 9001 [(9001, atom)] []]
        ⟨false, sdk.Registry.empty, (⟨none⟩, 0)⟩).engine = (⟨some (2, atom, [])⟩, 3)
    ∧ nonResetApplies specEngine
        [.dynamic 9001 atom [], .dynamic 1 atom [3], .dynamicWithReset 1 atom [] true,
         .configWithReset 2 [(2, atom)] [] true, .config 9001 [(9001, atom)] []]
        ⟨false, sdk.Registry.empty, (⟨none⟩, 0)⟩ ≤ 1 :=
  ⟨by decide, by decide,
   C12_at_most_one_non_reset_apply specEngine
     [.dynamic 9001 atom [], .dynamic 1 atom [3], .dynamicWithReset 1 atom [] true,
      .configWithReset 2 [(2, atom)] [] true, .config 9001 [(9001, atom)] []]
     ⟨false, sdk.Registry.empty, (⟨none⟩, 0)⟩⟩

/-- C13 (evaluation at the failing input).  On the spied engine, from the
initial state, the call `EvmAppOptionsWithConfig(9001, map, activators)` with
9001 in the map changes the Seal Flag from false to true although no
`Configure` returned success during the call: the counter is still 0 and the
engine is still unconfigured.  The same state is reachable in the sequence
semantics. -/
theorem C13_flag_set_without_configure :
    (⟨false, sdk.Registry.empty, (⟨none⟩, 0)⟩ : State (Engine × Nat)).sealed = false
    ∧ (Call.config 9001 [(9001, atom)] ([] : List Nat)).run (spy specEngine)
        ⟨false, sdk.Registry.empty, (⟨none⟩, 0)⟩
      = (⟨true, sdk.Registry.empty, (⟨none⟩, 0)⟩, .nil)
    ∧ nonResetApplies specEngine [.config 9001 [(9001, atom)] []]
        ⟨false, sdk.Registry.empty, (⟨none⟩, 0)⟩ = 0
    ∧ (runCalls (spy specEngine) [.config 9001 [(9001, atom)] []]
        ⟨false, sdk.Registry.empty, (⟨none⟩, 0)⟩).sealed = true := by
  decide

end Sequences

end EvmConfig
